import Mathlib

set_option autoImplicit false

/-!
Verification of the data-cleaning and radiative-transfer driver code of the
`mosaic_sunlight_underseaice` package.

The Python modules are shallowly embedded:

* pandas `Series` values become `List (Option ℚ)`, with `none` standing for
  `NaN`/null (comparisons with `NaN` are false, as in numpy);
* a pandas `DataFrame` becomes an association list of named columns plus a
  row count;
* Python exceptions become an `Except PyErr` result;
* `warnings.warn` calls are made explicit by returning the list of warning
  messages emitted during a call.
-/

namespace MosaicVerify

/-- Kinds of Python exceptions raised (or reachable) in the embedded code. -/
inductive PyErr where
  | valueError (msg : String)
  | nameError (msg : String)
  | attributeError (msg : String)
  | keyError (msg : String)
  deriving DecidableEq, Repr

/-- Embedding of `pandas.Series.between(min_value, max_value)` for one cell:
inclusive on both ends, and `NaN` (here `none`) compares false. -/
def between (minv maxv : ℚ) (v : Option ℚ) : Bool :=
  match v with
  | none => false
  | some x => decide (minv ≤ x) && decide (x ≤ maxv)

namespace CleanMosaicData

/-- Embedding of `clean_mosaic_data.check_data_range`.

Python source:

    in_range = series.between(min_value, max_value)
    out_of_range = in_range[series.notna()] == False
    if out_of_range.any():
        warnings.warn(...)
    if fix:
        return series.where(in_range, other=fill_value)
    return series

The returned pair is (resulting series, number of warnings emitted).
`fill_value` defaults to `np.nan`, i.e. `none`. -/
def check_data_range (series : List (Option ℚ)) (min_value max_value : ℚ)
    (fix : Bool) (fill_value : Option ℚ) : List (Option ℚ) × Nat :=
  let in_range := series.map (between min_value max_value)
  let out_of_range := (series.zip in_range).filterMap
    (fun p => if p.1.isSome then some (!p.2) else none)
  let nwarn := if out_of_range.any (fun b => b) then 1 else 0
  if fix then
    (((series.zip in_range).map (fun p => if p.2 then p.1 else fill_value)), nwarn)
  else
    (series, nwarn)

end CleanMosaicData

/-- A quantifier as used in the two patterns of `clean_mosaic_data`
(`{8}` and `+` are normalized to repetitions of `one` plus `star`). -/
inductive Quant where
  | one
  | star
  deriving Repr

/-- A single-character regex atom: a character class, the unescaped `.`
(which in Python matches any character except a newline), or a literal. -/
inductive Atom where
  | cls (p : Char → Bool)
  | dot
  | lit (c : Char)

/-- A token of a compiled pattern: a quantified atom or a capture-group
boundary (the two patterns only contain non-nested, sequential groups). -/
inductive Tok where
  | atom (a : Atom) (q : Quant)
  | openG
  | closeG

/-- Does the atom match one character? -/
def atomMatches (a : Atom) (c : Char) : Bool :=
  match a with
  | .cls p => p c
  | .dot => c ≠ '\n'
  | .lit c0 => c = c0

/-- Backtracking regex matcher, anchored at the start of the input, with the
greedy, leftmost semantics of Python `re` on these patterns.  The state is
(remaining tokens, remaining input, current open capture, finished captures);
success returns the captures in group order and the unconsumed input.  The
fuel only bounds recursion depth; it is chosen large enough that it is never
exhausted on the inputs considered. -/
def reMatch : Nat → List Tok → List Char → Option (List Char) →
    List (List Char) → Option (List (List Char) × List Char)
  | 0, _, _, _, _ => none
  | _ + 1, [], s, _, done => some (done, s)
  | fuel + 1, .openG :: ts, s, _, done => reMatch fuel ts s (some []) done
  | fuel + 1, .closeG :: ts, s, cur, done =>
    reMatch fuel ts s none (done ++ [cur.getD []])
  | fuel + 1, .atom a .one :: ts, s, cur, done =>
    match s with
    | [] => none
    | c :: cs =>
      if atomMatches a c then
        reMatch fuel ts cs (cur.map (fun g => g ++ [c])) done
      else none
  | fuel + 1, .atom a .star :: ts, s, cur, done =>
    match s with
    | [] => reMatch fuel ts s cur done
    | c :: cs =>
      if atomMatches a c then
        match reMatch fuel (.atom a .star :: ts) cs
            (cur.map (fun g => g ++ [c])) done with
        | some r => some r
        | none => reMatch fuel ts s cur done
      else reMatch fuel ts s cur done

/-- Python `re.search`: try the anchored match at each start position, left
to right. -/
def reSearch (fuel : Nat) (toks : List Tok) :
    List Char → Option (List (List Char) × List Char)
  | [] => reMatch fuel toks [] none []
  | c :: cs =>
    match reMatch fuel toks (c :: cs) none [] with
    | some r => some r
    | none => reSearch fuel toks cs

namespace CleanMosaicData

/-- The class `[-_]`. -/
def isDashUnd (c : Char) : Bool := c = '-' || c = '_'

/-- Python `\w` on the ASCII identifiers at hand (also the class `[\w_]`). -/
def isWordChar (c : Char) : Bool := c.isAlpha || c.isDigit || c = '_'

/-- Wraps a token run in a capture group. -/
def group (ts : List Tok) : List Tok := .openG :: ts ++ [.closeG]

/-- The token `[-_]*`. -/
def dstar : Tok := .atom (.cls isDashUnd) .star

/-- The token `\d`. -/
def digit1 : Tok := .atom (.cls Char.isDigit) .one

/-- The compiled pattern
`activity_id_str = r'(\d{8})[-_]*(\w+)[-_]*(\d)[-_]*(\d+)[-_]*(\d+)'`. -/
def activity_id_tokens : List Tok :=
  group (List.replicate 8 digit1)
  ++ [dstar]
  ++ group [.atom (.cls isWordChar) .one, .atom (.cls isWordChar) .star]
  ++ [dstar]
  ++ group [digit1]
  ++ [dstar]
  ++ group [digit1, .atom (.cls Char.isDigit) .star]
  ++ [dstar]
  ++ group [digit1, .atom (.cls Char.isDigit) .star]

/-- Literal tokens for a string (no metacharacters). -/
def litSeq (s : String) : List Tok := s.toList.map (fun c => .atom (.lit c) .one)

/-- The compiled pattern
`filename_str = r'(magna.gem2)[-_]*(transect)[-_]*' + activity_id_str +
r'[-_]*([\w_]*).csv'` — the dots in `magna.gem2` and `.csv` are unescaped
and match any character. -/
def filename_tokens : List Tok :=
  group (litSeq "magna" ++ [.atom .dot .one] ++ litSeq "gem2")
  ++ [dstar]
  ++ group (litSeq "transect")
  ++ [dstar]
  ++ activity_id_tokens
  ++ [dstar]
  ++ group [.atom (.cls isWordChar) .star]
  ++ [.atom .dot .one]
  ++ litSeq "csv"

/-- Embedding of `clean_mosaic_data.parse_activity_id`:
`activity_id_pattern.match(activity_id).groups()` zipped with the attribute
names; a failed match means `None.groups()`, an `AttributeError`. -/
def parse_activity_id (activity_id : List Char) :
    Except PyErr (List (String × List Char)) :=
  let attr_names := ["date", "campaign", "leg", "activity2", "activity3"]
  match reMatch 10000 activity_id_tokens activity_id none [] with
  | some (groups, _) => .ok (attr_names.zip groups)
  | none => .error (.attributeError "NoneType object has no attribute groups")

/-- Embedding of `clean_mosaic_data.parse_filename`:
`filename_pattern.search(fname).groups()` zipped with the key names. -/
def parse_filename (fname : List Char) :
    Except PyErr (List (String × List Char)) :=
  let keys := ["content", "transect", "date", "campaign",
               "leg", "activity2", "activity3", "location"]
  match reSearch 10000 filename_tokens fname with
  | some (groups, _) => .ok (keys.zip groups)
  | none => .error (.attributeError "NoneType object has no attribute groups")

/-- Embedding of `clean_mosaic_data.activity_and_file_attrs_match`.

Python source:

    file_activity_attr = {k: file_attr[key] for key in activity_attr.keys()}
    if file_activity_attr != activity_attr:
        False
    return True

The comprehension's key expression is the unbound name `k` (the loop
variable is `key`), so evaluating the comprehension on a nonempty
`activity_attr` raises `NameError`; on an empty one the comprehension never
evaluates `k` and the function returns `True` (the bare `False` statement on
the mismatch path is a no-op, so every completing path returns `True`). -/
def activity_and_file_attrs_match
    (activity_attr _file_attr : List (String × List Char)) :
    Except PyErr Bool :=
  match activity_attr with
  | [] => .ok true
  | _ => .error (.nameError "name k is not defined")

/-- Truthiness of the function object `activity_and_file_attrs_match` as a
Python value: a function object is always truthy. -/
def functionObjectIsTruthy : Bool := true

/-- Embedding of `clean_mosaic_data.parse_filepath` on the last two path
components.

Python source:

    activity_attr = parse_activity_id(activity_id)
    file_attr = parse_filename(filename)
    if not activity_and_file_attrs_match:
        raise ValueError(...)
    return file_attr

The `if` tests the truthiness of the function object itself — the call
parentheses are missing — so the `raise` branch is dead code and the file
attributes are returned even when the two identifiers disagree. -/
def parse_filepath (activity_id fname : List Char) :
    Except PyErr (List (String × List Char)) := do
  let _activity_attr ← parse_activity_id activity_id
  let file_attr ← parse_filename fname
  if ¬ functionObjectIsTruthy then
    throw (.valueError "File and activity attributes do not match")
  pure file_attr

end CleanMosaicData

namespace MosaicThickness

/-- A pandas column: one optional-rational cell per row (`none` is `NaN`). -/
abbrev Col := List (Option ℚ)

/-- Shallow embedding of a pandas `DataFrame`: the row count and the named
columns in order.  Lookup is by name; assignment replaces an existing column
in place or appends a new one at the end, as pandas does. -/
structure DF where
  nrows : Nat
  cols : List (String × Col)
  deriving DecidableEq, Repr

/-- Membership test, Python `name in df`. -/
def DF.hasCol (df : DF) (name : String) : Bool :=
  df.cols.any (fun p => p.1 == name)

/-- Column read, Python `df[name]` (the embedded code only reads a column
after a membership test, so the empty default is never observed). -/
def DF.getCol (df : DF) (name : String) : Col :=
  match df.cols.find? (fun p => p.1 == name) with
  | some p => p.2
  | none => []

/-- Column assignment, Python `df[name] = column`. -/
def DF.setCol (df : DF) (name : String) (c : Col) : DF :=
  if df.hasCol name then
    { df with cols := df.cols.map (fun p => if p.1 == name then (name, c) else p) }
  else
    { df with cols := df.cols ++ [(name, c)] }

/-- Scalar assignment `df[name] = v`, broadcast over all rows. -/
def DF.setScalar (df : DF) (name : String) (v : Option ℚ) : DF :=
  df.setCol name (List.replicate df.nrows v)

/-- Numpy comparison `v > 0.` on one cell; false on `NaN`. -/
def gtZero (v : Option ℚ) : Bool :=
  match v with
  | none => false
  | some x => decide (0 < x)

/-- Numpy comparison `v <= 0.` on one cell; false on `NaN`. -/
def leZero (v : Option ℚ) : Bool :=
  match v with
  | none => false
  | some x => decide (x ≤ 0)

/-- One row of `np.select(conditions, choices, default=0)`: the choice of the
first true condition, else the default `0`. -/
def selectFirst : List (Bool × Option ℚ) → Option ℚ → Option ℚ
  | [], d => d
  | (c, v) :: rest, d => if c then v else selectFirst rest d

/-- Embedding of `mosaic_thickness.infer_surface_type`.

Python source:

    conditions = [
        (df.snow_depth_m > 0.) & (df.melt_pond_depth_m <= 0.),
        (df.snow_depth_m <= 0.) & (df.melt_pond_depth_m > 0.),
        (df.snow_depth_m <= 0.) & (df.melt_pond_depth_m <= 0.),
        (df.snow_depth_m > 0.) & (df.melt_pond_depth_m > 0.),
        ]
    choices = [1, -1, 2, np.nan]
    surface_type = np.select(conditions, choices)

`np.select` defaults to `0` when no condition holds (the case of a `NaN`
snow or pond cell, on which every comparison is false). -/
def infer_surface_type (df : DF) : Col :=
  let snow := df.getCol "snow_depth_m"
  let pond := df.getCol "melt_pond_depth_m"
  (snow.zip pond).map (fun p =>
    selectFirst
      [ (gtZero p.1 && leZero p.2, some 1),
        (leZero p.1 && gtZero p.2, some (-1)),
        (leZero p.1 && leZero p.2, some 2),
        (gtZero p.1 && gtZero p.2, none) ]
      (some 0))

/-- Embedding of `mosaic_thickness.assign_ice_thickness`: thickness channels
are consulted in priority order; the second pair component is the list of
warnings the call emits. -/
def assign_ice_thickness (df : DF) : DF × List String :=
  if df.hasCol "ice_thickness_18khz_ip_m" then
    ((df.setCol "ice_thickness_m" (df.getCol "ice_thickness_18khz_ip_m")).setScalar
        "ice_thickness_flag" (some 1), [])
  else if df.hasCol "ice_thickness_f18325hz_hcp_i_m" then
    ((df.setCol "ice_thickness_m" (df.getCol "ice_thickness_f18325hz_hcp_i_m")).setScalar
        "ice_thickness_flag" (some 2),
      ["Using ice_thickness_f18325hz_hcp_i_m for ice thickness"])
  else
    (((df.setScalar "ice_thickness_m" none).setScalar "ice_thickness_flag" (some 0)),
      ["Expected ice_thickness column not found"])

/-- Embedding of `mosaic_thickness.assign_melt_pond_depth`:
`col.where(col > 0., 0.)` keeps a cell where the comparison is true and
writes `0.` elsewhere; a missing column is synthesized as all zeros with a
warning. -/
def assign_melt_pond_depth (df : DF) : DF × List String :=
  if df.hasCol "melt_pond_depth_m" then
    (df.setCol "melt_pond_depth_m"
        ((df.getCol "melt_pond_depth_m").map
          (fun v => if gtZero v then v else some 0)), [])
  else
    (df.setScalar "melt_pond_depth_m" (some 0),
      ["melt_pond_depth_m not found in dataFrame; adding column of zeros"])

/-- Embedding of `mosaic_thickness.assign_snow_depth`: same clamp as the
melt-pond case, but a missing column is synthesized as all `NaN` with a
warning. -/
def assign_snow_depth (df : DF) : DF × List String :=
  if df.hasCol "snow_depth_m" then
    (df.setCol "snow_depth_m"
        ((df.getCol "snow_depth_m").map
          (fun v => if gtZero v then v else some 0)), [])
  else
    (df.setScalar "snow_depth_m" none,
      ["snow_depth_m not found in dataFrame;adding column of NaN"])

/-- Column read raising `KeyError` when absent, Python `df[name]` on an
arbitrary name. -/
def DF.readCol (df : DF) (name : String) : Except PyErr Col :=
  if df.hasCol name then .ok (df.getCol name) else .error (.keyError name)

/-- The columns kept by `parse_raw_combined_data`. -/
def KEEP_THESE_COLUMNS : List String :=
  ["lon", "lat", "local_x", "local_y",
   "ice_thickness_m", "snow_depth_m",
   "melt_pond_depth_m", "surface_type",
   "transect_distance_m", "ice_thickness_flag"]

/-- Column projection `df[names]`; pandas raises `KeyError` when a requested
column is absent. -/
def selectCols (df : DF) (names : List String) : Except PyErr DF :=
  if names.all (fun n => df.hasCol n) then
    .ok { nrows := df.nrows, cols := names.map (fun n => (n, df.getCol n)) }
  else
    .error (.keyError "columns not found")

/-- Embedding of `mosaic_thickness.parse_raw_combined_data` after the file
has been loaded.  The along-track distance computation calls `np.sqrt` and is
irrational-valued, so it is taken as the parameter `dist` here; the faithful
real-valued embedding of `transect_distance` is given separately for claim
C8.  The second component collects the warnings emitted by the pipeline. -/
def parse_raw_combined_data (dist : Col → Col → Col) (df0 : DF) :
    Except PyErr (DF × List String) :=
  let p1 := assign_ice_thickness df0
  let p2 := assign_melt_pond_depth p1.1
  let p3 := assign_snow_depth p2.1
  let df4 := if p3.1.hasCol "surface_type" then p3.1
             else p3.1.setCol "surface_type" (infer_surface_type p3.1)
  let df5 := df4.setCol "transect_distance_m"
               (dist (df4.getCol "local_x") (df4.getCol "local_y"))
  match selectCols df5 KEEP_THESE_COLUMNS with
  | .ok out => .ok (out, p1.2 ++ p2.2 ++ p3.2)
  | .error e => .error e
/-- Embedding of `np.roll(x, 1)`: the last element moves to the front. -/
def roll1 (l : List ℝ) : List ℝ :=
  match l with
  | [] => []
  | a :: as => (a :: as).getLast (by simp) :: (a :: as).dropLast

/-- The in-place update `x1[0] = x1[1]`: the first entry is overwritten with
the second (the source only reaches this with at least two points). -/
def overwriteHead (l : List ℝ) : List ℝ :=
  match l with
  | a :: b :: rest => b :: b :: rest
  | l => l

/-- Embedding of `np.cumsum`. -/
def cumsum (l : List ℝ) : List ℝ :=
  (l.scanl (fun u v => u + v) 0).tail

/-- Embedding of `mosaic_thickness.transect_distance`.

Python source:

    x1, y1 = np.roll(x0, 1), np.roll(y0, 1)
    x1[0], y1[0] = x1[1], y1[1]
    return np.cumsum(np.sqrt((x1 - x0)**2 + (y1 - y0)**2))

The coordinates are real-valued because of `np.sqrt`. -/
noncomputable def transect_distance (x0 y0 : List ℝ) : List ℝ :=
  let x1 := overwriteHead (roll1 x0)
  let y1 := overwriteHead (roll1 y0)
  let dx := x1.zipWith (fun u v => (u - v) ^ 2) x0
  let dy := y1.zipWith (fun u v => (u - v) ^ 2) y0
  cumsum ((dx.zipWith (fun s t => s + t) dy).map Real.sqrt)

end MosaicThickness

namespace RTModel

open MosaicThickness

/-- The attributes the driver writes onto the external `SeaIceRT` model
object before calling `run()`.  The temperatures are optional because
`seaicert_mp` never sets them (the library default applies). -/
structure ModelInput where
  day_of_year : ℚ
  latitude : ℚ
  snow_depth : ℚ
  pond_depth : ℚ
  sea_ice_thickness : ℚ
  surface_air_temperature : Option ℚ
  ground_temperature : Option ℚ
  snow_grain_radius : ℚ
  deriving DecidableEq, Repr

/-- The fields of the `get_results()` dictionary the driver reads. -/
structure ModelOutput where
  downwelling_shortwave_flux_absorbed_by_ocean : ℚ
  downwelling_longwave_flux_absorbed_by_ocean : ℚ
  surface_albedo : ℚ
  surface_downwelling_radiative_flux : ℚ
  deriving DecidableEq, Repr

/-- A timestamp as used by `get_deci_day_of_year`. -/
structure Timestamp where
  day_of_year : Nat
  hour : Nat
  minute : Nat
  second : Nat
  deriving DecidableEq, Repr

/-- Embedding of `rtmodel.get_deci_day_of_year`. -/
def get_deci_day_of_year (t : Timestamp) : ℚ :=
  (t.day_of_year : ℚ) + ((t.hour : ℚ) + ((t.minute : ℚ) + (t.second : ℚ) / 60) / 60) / 24

/-- Embedding of `rtmodel.sw2par_underice`: `SW2PAR = 0.79`. -/
def sw2par_underice (irradiance : ℚ) : ℚ :=
  irradiance * (79 / 100)

/-- Embedding of `rtmodel.sw2par_openwater`: `SW2PAR = 0.5`. -/
def sw2par_openwater (irradiance : ℚ) : ℚ :=
  irradiance * (1 / 2)

/-- Embedding of `rtmodel.rad2quanta_underice`: `RAD2QUANTA = 4.44`. -/
def rad2quanta_underice (irradiance : ℚ) : ℚ :=
  irradiance * (444 / 100)

/-- Embedding of `rtmodel.rad2quanta_openwater`: `RAD2QUANTA = 4.44`. -/
def rad2quanta_openwater (irradiance : ℚ) : ℚ :=
  irradiance * (444 / 100)

/-- Embedding of `rtmodel.get_qpar_openwater`. -/
def get_qpar_openwater (irradiance : ℚ) : ℚ :=
  rad2quanta_openwater (sw2par_openwater irradiance)

/-- Embedding of `rtmodel.get_qpar_underice`. -/
def get_qpar_underice (irradiance : ℚ) : ℚ :=
  rad2quanta_underice (sw2par_underice irradiance)

/-- Embedding of `rtmodel.seaicert_point`.  The external `SeaIceRT` model is
the parameter `run`; the result tuple keeps the Python ordering.  The mutual
exclusion check fires first: its f-string message references the name
`iday_of_year`, which is not defined in `seaicert_point`, so evaluating the
`raise` statement raises a `NameError` rather than the intended
`ValueError`.  The `snow_grain_radius` argument is accepted but the source
hardcodes `model.snow_grain_radius = 180.`. -/
def seaicert_point (run : ModelInput → ModelOutput) (timestamp : Timestamp)
    (latitude snow_depth pond_depth ice_thickness
      surface_temperature air_temperature : ℚ) (snow_grain_radius : ℚ := 180) :
    Except PyErr (Timestamp × ℚ × ℚ × ℚ × ℚ × ℚ × ℚ) :=
  if snow_depth > 0 ∧ pond_depth > 0 then
    .error (.nameError "iday_of_year")
  else if snow_depth < 0 then
    .error (.valueError "Snow depth must be positive")
  else if pond_depth < 0 then
    .error (.valueError "Melt pond depth must be positive")
  else if ice_thickness < 0 then
    .error (.valueError "Ice thickness must be positive")
  else
    let output := run
      { day_of_year := get_deci_day_of_year timestamp
        latitude := latitude
        snow_depth := snow_depth
        pond_depth := pond_depth
        sea_ice_thickness := ice_thickness
        surface_air_temperature := some air_temperature
        ground_temperature := some surface_temperature
        snow_grain_radius := 180 }
    let total_flux_absorbed_by_ocean :=
      output.downwelling_shortwave_flux_absorbed_by_ocean
        + output.downwelling_longwave_flux_absorbed_by_ocean
    let qpar_absorbed_by_ocean :=
      if ice_thickness > 0 then get_qpar_underice total_flux_absorbed_by_ocean
      else get_qpar_openwater total_flux_absorbed_by_ocean
    .ok (timestamp,
      output.downwelling_shortwave_flux_absorbed_by_ocean,
      output.downwelling_longwave_flux_absorbed_by_ocean,
      total_flux_absorbed_by_ocean,
      qpar_absorbed_by_ocean,
      output.surface_albedo,
      output.surface_downwelling_radiative_flux)

/-- One row of the transect frame passed to `seaicert_mp`: the index
day-of-year together with the five columns the function reads. -/
structure MPRow where
  day_of_year : ℚ
  lat : ℚ
  snow_depth_m : ℚ
  melt_pond_depth_m : ℚ
  ice_thickness_mean_m : ℚ
  transect_distance_m : ℚ
  deriving DecidableEq, Repr

/-- Embedding of `rtmodel.flux_to_par`.  Each pandas column read `df[...]`
raises `KeyError` when the column is absent; `np.where` keeps the under-ice
PAR where the ice-thickness cell compares `> 0` and the open-water PAR
elsewhere (also on `NaN`). -/
def flux_to_par (df : DF) : Except PyErr DF := do
  let flux ← df.readCol "downwelling_radiative_flux_absorbed_by_ocean"
  let underice_par := flux.map (Option.map get_qpar_underice)
  let ocean_par := flux.map (Option.map get_qpar_openwater)
  let ice ← df.readCol "ice_thickness_m"
  let par := ((ice.zip underice_par).zip ocean_par).map
    (fun p => if gtZero p.1.1 then p.1.2 else p.2)
  pure (df.setCol "par_absorbed_by_ocean" par)

/-- The per-row loop of `rtmodel.seaicert_mp`: validation, then one model
run per surviving row.  Returns the collected per-row outputs (or the first
validation error) together with the list of inputs the model was actually
invoked on, in order. -/
def seaicert_mp_loop (run : ModelInput → ModelOutput) :
    List MPRow → Except PyErr (List ModelOutput) × List ModelInput
  | [] => (.ok [], [])
  | r :: rs =>
    if r.snow_depth_m > 0 ∧ r.melt_pond_depth_m > 0 then
      (.error (.valueError
        "Snow depth and pond depth cannot both be greater than zero"), [])
    else if r.snow_depth_m < 0 then
      (.error (.valueError "Snow depth must be positive"), [])
    else if r.melt_pond_depth_m < 0 then
      (.error (.valueError "Melt pond depth must be positive"), [])
    else if r.ice_thickness_mean_m < 0 then
      (.error (.valueError "Ice thickness must be positive"), [])
    else
      let inp : ModelInput :=
        { day_of_year := r.day_of_year + 1 / 2
          latitude := r.lat
          snow_depth := r.snow_depth_m
          pond_depth := r.melt_pond_depth_m
          sea_ice_thickness := r.ice_thickness_mean_m
          surface_air_temperature := none
          ground_temperature := none
          snow_grain_radius := 180 }
      let output := run inp
      let rest := seaicert_mp_loop run rs
      ((match rest.1 with
        | .ok outs => .ok (output :: outs)
        | .error e => .error e),
       inp :: rest.2)

/-- Embedding of `rtmodel.seaicert_mp`: the validation loop, then the result
frame (the non-numeric `datetime` column is omitted), then `flux_to_par`.
Note that the frame has an `ice_thickness_mean_m` column while
`flux_to_par` reads `ice_thickness_m`, so the final step raises `KeyError`
even on valid inputs.  The second component is the list of model
invocations performed. -/
def seaicert_mp (run : ModelInput → ModelOutput) (rows : List MPRow) :
    Except PyErr DF × List ModelInput :=
  let rest := seaicert_mp_loop run rows
  ((match rest.1 with
    | .error e => .error e
    | .ok outs =>
      let result : DF :=
        ⟨rows.length,
          [("latitude", rows.map (fun r => some r.lat)),
           ("snow_depth_m", rows.map (fun r => some r.snow_depth_m)),
           ("melt_pond_depth_m", rows.map (fun r => some r.melt_pond_depth_m)),
           ("ice_thickness_mean_m", rows.map (fun r => some r.ice_thickness_mean_m)),
           ("sw_absorbed_by_ocean",
             outs.map (fun o => some o.downwelling_shortwave_flux_absorbed_by_ocean)),
           ("downwelling_radiative_flux_absorbed_by_ocean",
             outs.map (fun o => some (o.downwelling_shortwave_flux_absorbed_by_ocean
               + o.downwelling_longwave_flux_absorbed_by_ocean))),
           ("surface_albedo", outs.map (fun o => some o.surface_albedo)),
           ("surface_downwelling_radiative_flux",
             outs.map (fun o => some o.surface_downwelling_radiative_flux)),
           ("transect_distance_m", rows.map (fun r => some r.transect_distance_m))]⟩
      match flux_to_par result with
      | .ok df2 => .ok df2
      | .error e => .error e),
   rest.2)

end RTModel

namespace ReformatMagnaprobe

/-- Python whitespace for `str.strip()` and `str.split()`. -/
def isPySpace (c : Char) : Bool :=
  c = ' ' ∨ c = '\t' ∨ c = '\n' ∨ c = '\r' ∨ c = '\x0b' ∨ c = '\x0c'

/-- ASCII lower-casing, Python `str.lower()` on the ASCII header text. -/
def asciiLower (c : Char) : Char :=
  match c with
  | 'A' => 'a' | 'B' => 'b' | 'C' => 'c' | 'D' => 'd' | 'E' => 'e'
  | 'F' => 'f' | 'G' => 'g' | 'H' => 'h' | 'I' => 'i' | 'J' => 'j'
  | 'K' => 'k' | 'L' => 'l' | 'M' => 'm' | 'N' => 'n' | 'O' => 'o'
  | 'P' => 'p' | 'Q' => 'q' | 'R' => 'r' | 'S' => 's' | 'T' => 't'
  | 'U' => 'u' | 'V' => 'v' | 'W' => 'w' | 'X' => 'x' | 'Y' => 'y'
  | 'Z' => 'z' | c => c

/-- Python `str.strip()`. -/
def pyStrip (l : List Char) : List Char :=
  ((l.dropWhile isPySpace).reverse.dropWhile isPySpace).reverse

/-- Python `str.split()` with no argument: split on whitespace runs,
discarding empty pieces. -/
def pySplitWs (l : List Char) : List (List Char) :=
  (l.splitOnP isPySpace).filter (fun w => w ≠ [])

/-- Embedding of `reformat_magnaprobe.check_column_counts`: the header and
every data line must split into the same number of comma-separated fields. -/
def check_column_counts (header : List Char) (data : List (List Char)) : Bool :=
  let nheader := (header.splitOn ',').length
  let nfield := data.map (fun l => (l.splitOn ',').length)
  let count_match := nfield.map (fun nf => nheader == nf)
  let passed := true
  let passed := if count_match.dedup.length > 1 then false else passed
  let passed := if ¬ (count_match.dedup.all (fun b => b)) then false else passed
  passed

/-- Embedding of `reformat_magnaprobe.remove_trailing_comma`:
`header[:-1]`. -/
def remove_trailing_comma (header : List Char) : List Char :=
  header.dropLast

/-- Substring test: does the literal pattern occur in the list? -/
def containsSeq (pat : List Char) : List Char → Bool
  | [] => pat.isPrefixOf []
  | c :: cs => pat.isPrefixOf (c :: cs) || containsSeq pat cs

/-- Embedding of `reformat_magnaprobe.check_missing_comma_in_header`:
`re.findall(r"\(m\) ", header)` is truthy exactly when the literal text
`"(m) "` occurs in the header. -/
def check_missing_comma_in_header (header : List Char) : Bool :=
  containsSeq ("(m) ".toList) header

/-- Leftmost, non-overlapping replacement of the literal pattern
`p :: ps` by `repl`, the behaviour of `re.sub` on a literal pattern. -/
def replaceAll (p : Char) (ps repl : List Char) : List Char → List Char
  | [] => []
  | c :: cs =>
    if (p :: ps).isPrefixOf (c :: cs) then
      repl ++ replaceAll p ps repl (cs.drop ps.length)
    else
      c :: replaceAll p ps repl cs
termination_by l => l.length
decreasing_by
  · simp only [List.length_drop, List.length_cons]
    omega
  · simp only [List.length_cons]
    omega

/-- Embedding of `reformat_magnaprobe.fix_missing_comma_in_header`:
`re.sub(r"\(m\) ", "(m), ", header)`. -/
def fix_missing_comma_in_header (header : List Char) : List Char :=
  replaceAll '(' ("m) ".toList) ("(m), ".toList) header

/-- The transformation `reformat_header` applies to a single comma-separated
field: strip, lower-case, delete parentheses, then join the whitespace-split
words with underscores. -/
def canonField (s : List Char) : List Char :=
  List.intercalate ['_']
    (pySplitWs (((pyStrip s).map asciiLower).filter
      (fun c => ¬ (c = '(' ∨ c = ')'))))

/-- Embedding of `reformat_magnaprobe.reformat_header`. -/
def reformat_header (header : List Char) : List Char :=
  List.intercalate [','] ((header.splitOn ',').map canonField)

/-- Embedding of `reformat_magnaprobe.check_data_fields`. -/
def check_data_fields (header : List Char) (data : List (List Char)) : Bool :=
  let nheader := (header.splitOn ',').length
  data.all (fun l => (l.splitOn ',').length == nheader)

/-- Embedding of `reformat_magnaprobe.fix_data_line`: drop a trailing comma,
then pad the comma-separated fields with the sentinel `nan` up to
`nheader` fields (no padding when the line is not short). -/
def fix_data_line (nheader : Nat) (line : List Char) : List Char :=
  let line := if line.getLast? = some ',' then line.dropLast else line
  let fields := line.splitOn ','
  let nmissing := nheader - fields.length
  List.intercalate [','] (fields ++ List.replicate nmissing ("nan".toList))

/-- Embedding of `reformat_magnaprobe.fix_data_fields`: repair exactly the
lines whose field count differs from the header's. -/
def fix_data_fields (header : List Char) (data : List (List Char)) :
    List (List Char) :=
  let nheader := (header.splitOn ',').length
  data.map (fun line =>
    if (line.splitOn ',').length == nheader then line
    else fix_data_line nheader line)

/-- Embedding of `reformat_magnaprobe.reformat_combined_file` on the header
line and data lines of one file; the result is the (header, data) pair that
would be written to the output file.  The header fixes and the data-field
fix run only when the initial column-count check fails, and the data fix is
guarded by `check_data_fields` being true, exactly as in the source. -/
def reformat_combined_file (header0 : List Char) (data0 : List (List Char)) :
    Except PyErr (List Char × List (List Char)) :=
  if check_column_counts header0 data0 then
    .ok (reformat_header header0, data0)
  else
    let header1 := if header0.getLast? = some ',' then
        remove_trailing_comma header0 else header0
    let header2 := if check_missing_comma_in_header header1 then
        fix_missing_comma_in_header header1 else header1
    let data1 := if check_data_fields header2 data0 then
        fix_data_fields header2 data0 else data0
    if ¬ check_column_counts header2 data1 then
      .error (.valueError "Mismatch between header and data columns persists")
    else
      .ok (reformat_header header2, data1)

end ReformatMagnaprobe

end MosaicVerify

/-! Helper lemmas. -/

namespace MosaicVerify

namespace CleanMosaicData

lemma zip_map_between (series : List (Option ℚ)) (minv maxv : ℚ) :
    series.zip (series.map (between minv maxv))
      = series.map (fun v => (v, between minv maxv v)) := by
  have h := List.zip_map' (fun v : Option ℚ => v) (between minv maxv) series
  simpa using h

lemma check_data_range_fix_eq (series : List (Option ℚ)) (minv maxv : ℚ)
    (fill : Option ℚ) :
    (check_data_range series minv maxv true fill).1
      = series.map (fun v => if between minv maxv v then v else fill) := by
  simp only [check_data_range, zip_map_between, List.map_map]
  rfl

lemma filterMap_isSome_any (minv maxv : ℚ) (series : List (Option ℚ)) :
    (series.filterMap
      (fun v => if v.isSome then some (!(between minv maxv v)) else none)).any
        (fun b => b)
      = series.any (fun v => v.isSome && !(between minv maxv v)) := by
  induction series with
  | nil => rfl
  | cons v rest ih =>
    cases v with
    | none =>
      simpa [List.filterMap_cons] using ih
    | some x =>
      simp only [List.filterMap_cons, Option.isSome_some, if_pos, List.any_cons]
      rw [ih]
      simp

lemma check_data_range_warn_eq (series : List (Option ℚ)) (minv maxv : ℚ)
    (fix : Bool) (fill : Option ℚ) :
    (check_data_range series minv maxv fix fill).2
      = if series.any (fun v => v.isSome && !(between minv maxv v)) then 1 else 0 := by
  have hfm : (series.zip (series.map (between minv maxv))).filterMap
      (fun p => if p.1.isSome then some (!p.2) else none)
      = series.filterMap
        (fun v => if v.isSome then some (!(between minv maxv v)) else none) := by
    rw [zip_map_between, List.filterMap_map]
    rfl
  have h2 : (check_data_range series minv maxv fix fill).2
      = if ((series.zip (series.map (between minv maxv))).filterMap
          (fun p => if p.1.isSome then some (!p.2) else none)).any (fun b => b)
        then 1 else 0 := by
    cases fix <;> rfl
  rw [h2, hfm, filterMap_isSome_any]

end CleanMosaicData

namespace MosaicThickness

namespace DF

lemma find?_map_replace_self (n : String) (c : Col) (l : List (String × Col))
    (h : l.any (fun p => p.1 == n) = true) :
    (l.map (fun p => if p.1 == n then (n, c) else p)).find? (fun p => p.1 == n)
      = some (n, c) := by
  induction l with
  | nil => simp at h
  | cons a l ih =>
    cases ha : (a.1 == n) with
    | true =>
      rw [List.map_cons, if_pos ha]
      simp [List.find?_cons]
    | false =>
      have h2 : l.any (fun p => p.1 == n) = true := by
        rcases List.any_eq_true.mp h with ⟨p, hp, hpn⟩
        rcases List.mem_cons.mp hp with rfl | hpl
        · rw [ha] at hpn
          exact absurd hpn (by simp)
        · exact List.any_eq_true.mpr ⟨p, hpl, hpn⟩
      rw [List.map_cons, if_neg (by simp [ha])]
      simp only [List.find?_cons, ha]
      exact ih h2

lemma find?_map_replace_other (n m : String) (c : Col) (l : List (String × Col))
    (hmn : (m == n) = false) :
    (l.map (fun p => if p.1 == n then (n, c) else p)).find? (fun p => p.1 == m)
      = l.find? (fun p => p.1 == m) := by
  have hnm : (n == m) = false := by
    rw [Bool.beq_comm, hmn]
  induction l with
  | nil => rfl
  | cons a l ih =>
    cases ha : (a.1 == n) with
    | true =>
      have haeq : a.1 = n := by simpa using ha
      have ham : (a.1 == m) = false := by
        rw [haeq]
        exact hnm
      rw [List.map_cons, if_pos ha]
      simp only [List.find?_cons, hnm, ham]
      exact ih
    | false =>
      rw [List.map_cons, if_neg (by simp [ha])]
      cases ham : (a.1 == m) with
      | true => simp only [List.find?_cons, ham]
      | false =>
        simp only [List.find?_cons, ham]
        exact ih

lemma getCol_setCol_self (df : DF) (n : String) (c : Col) :
    (df.setCol n c).getCol n = c := by
  unfold DF.setCol DF.getCol DF.hasCol
  by_cases h : df.cols.any (fun p => p.1 == n) = true
  · simp only [if_pos h, find?_map_replace_self n c df.cols h]
  · simp only [if_neg h]
    have hnone : df.cols.find? (fun p => p.1 == n) = none := by
      rw [List.find?_eq_none]
      intro x hx hpx
      exact h (List.any_eq_true.mpr ⟨x, hx, hpx⟩)
    rw [List.find?_append, hnone]
    simp

lemma getCol_setCol_other (df : DF) (n m : String) (c : Col)
    (hmn : (m == n) = false) :
    (df.setCol n c).getCol m = df.getCol m := by
  have hnm : (n == m) = false := by
    rw [Bool.beq_comm, hmn]
  unfold DF.setCol DF.getCol
  by_cases h : df.hasCol n = true
  · simp only [if_pos h, find?_map_replace_other n m c df.cols hmn]
  · simp only [if_neg h]
    rw [List.find?_append]
    cases hf : df.cols.find? (fun p => p.1 == m) with
    | some p => simp
    | none => simp [List.find?_singleton, hnm]

lemma hasCol_setCol (df : DF) (n m : String) (c : Col) :
    (df.setCol n c).hasCol m = (df.hasCol m || (m == n)) := by
  unfold DF.setCol DF.hasCol
  by_cases h : df.cols.any (fun p => p.1 == n) = true
  · rw [if_pos h, List.any_map]
    have hnames : (fun p : String × Col => p.1 == m) ∘
        (fun p => if p.1 == n then (n, c) else p)
          = (fun p : String × Col => p.1 == m) := by
      funext p
      by_cases hpn : (p.1 == n) = true
      · have : p.1 = n := by simpa using hpn
        simp [Function.comp, if_pos hpn, this]
      · have hne : ¬ p.1 = n := by simpa using hpn
        simp [Function.comp, hne]
    rw [hnames]
    by_cases hmn : (m == n) = true
    · have : m = n := by simpa using hmn
      subst this
      simp [h, hmn]
    · simp [hmn]
  · rw [if_neg h, List.any_append]
    simp [Bool.beq_comm]

lemma nrows_setCol (df : DF) (n : String) (c : Col) :
    (df.setCol n c).nrows = df.nrows := by
  unfold DF.setCol
  by_cases h : df.hasCol n = true <;> simp [h]

lemma nrows_setScalar (df : DF) (n : String) (v : Option ℚ) :
    (df.setScalar n v).nrows = df.nrows :=
  nrows_setCol df n _

lemma getCol_setScalar_self (df : DF) (n : String) (v : Option ℚ) :
    (df.setScalar n v).getCol n = List.replicate df.nrows v :=
  getCol_setCol_self df n _

lemma getCol_setScalar_other (df : DF) (n m : String) (v : Option ℚ)
    (hmn : (m == n) = false) :
    (df.setScalar n v).getCol m = df.getCol m :=
  getCol_setCol_other df n m _ hmn

lemma hasCol_setScalar (df : DF) (n m : String) (v : Option ℚ) :
    (df.setScalar n v).hasCol m = (df.hasCol m || (m == n)) :=
  hasCol_setCol df n m _

end DF

lemma find?_namesMap (df : DF) (names : List String) (n : String)
    (hmem : n ∈ names) :
    (names.map (fun x => (x, df.getCol x))).find? (fun p => p.1 == n)
      = some (n, df.getCol n) := by
  induction names with
  | nil => simp at hmem
  | cons a names ih =>
    cases ha : (a == n) with
    | true =>
      have : a = n := by simpa using ha
      subst this
      rw [List.map_cons]
      simp [List.find?_cons]
    | false =>
      have hmem2 : n ∈ names := by
        rcases List.mem_cons.mp hmem with rfl | hh
        · rw [beq_self_eq_true] at ha
          cases ha
        · exact hh
      rw [List.map_cons]
      simp only [List.find?_cons, ha]
      exact ih hmem2

lemma selectCols_ok_getCol (df : DF) (names : List String) (out : DF)
    (n : String) (hmem : n ∈ names) (h : selectCols df names = .ok out) :
    out.getCol n = df.getCol n := by
  unfold selectCols at h
  by_cases hall : names.all (fun x => df.hasCol x) = true
  · rw [if_pos hall] at h
    cases h
    show (match (names.map (fun x => (x, df.getCol x))).find? (fun p => p.1 == n) with
          | some p => p.2
          | none => ([] : Col)) = df.getCol n
    rw [find?_namesMap df names n hmem]
  · rw [if_neg hall] at h
    cases h

lemma assign_ice_thickness_getCol_other (df : DF) (m : String)
    (h1 : (m == "ice_thickness_m") = false)
    (h2 : (m == "ice_thickness_flag") = false) :
    (assign_ice_thickness df).1.getCol m = df.getCol m := by
  unfold assign_ice_thickness
  by_cases c1 : df.hasCol "ice_thickness_18khz_ip_m" = true
  · rw [if_pos c1]
    rw [DF.getCol_setScalar_other _ _ _ _ h2, DF.getCol_setCol_other _ _ _ _ h1]
  · rw [if_neg c1]
    by_cases c2 : df.hasCol "ice_thickness_f18325hz_hcp_i_m" = true
    · rw [if_pos c2]
      rw [DF.getCol_setScalar_other _ _ _ _ h2, DF.getCol_setCol_other _ _ _ _ h1]
    · rw [if_neg c2]
      rw [DF.getCol_setScalar_other _ _ _ _ h2, DF.getCol_setScalar_other _ _ _ _ h1]

lemma assign_ice_thickness_hasCol (df : DF) (m : String)
    (h1 : (m == "ice_thickness_m") = false)
    (h2 : (m == "ice_thickness_flag") = false) :
    (assign_ice_thickness df).1.hasCol m = df.hasCol m := by
  unfold assign_ice_thickness
  by_cases c1 : df.hasCol "ice_thickness_18khz_ip_m" = true
  · rw [if_pos c1]
    rw [DF.hasCol_setScalar, DF.hasCol_setCol, h1, h2]
    simp
  · rw [if_neg c1]
    by_cases c2 : df.hasCol "ice_thickness_f18325hz_hcp_i_m" = true
    · rw [if_pos c2]
      rw [DF.hasCol_setScalar, DF.hasCol_setCol, h1, h2]
      simp
    · rw [if_neg c2]
      rw [DF.hasCol_setScalar, DF.hasCol_setScalar, h1, h2]
      simp

lemma assign_melt_pond_depth_getCol_other (df : DF) (m : String)
    (h : (m == "melt_pond_depth_m") = false) :
    (assign_melt_pond_depth df).1.getCol m = df.getCol m := by
  unfold assign_melt_pond_depth
  by_cases c : df.hasCol "melt_pond_depth_m" = true
  · rw [if_pos c]
    exact DF.getCol_setCol_other _ _ _ _ h
  · rw [if_neg c]
    exact DF.getCol_setScalar_other _ _ _ _ h

lemma assign_melt_pond_depth_hasCol (df : DF) (m : String)
    (h : (m == "melt_pond_depth_m") = false) :
    (assign_melt_pond_depth df).1.hasCol m = df.hasCol m := by
  unfold assign_melt_pond_depth
  by_cases c : df.hasCol "melt_pond_depth_m" = true
  · rw [if_pos c, DF.hasCol_setCol, h]
    simp
  · rw [if_neg c, DF.hasCol_setScalar, h]
    simp

lemma assign_snow_depth_getCol_other (df : DF) (m : String)
    (h : (m == "snow_depth_m") = false) :
    (assign_snow_depth df).1.getCol m = df.getCol m := by
  unfold assign_snow_depth
  by_cases c : df.hasCol "snow_depth_m" = true
  · rw [if_pos c]
    exact DF.getCol_setCol_other _ _ _ _ h
  · rw [if_neg c]
    exact DF.getCol_setScalar_other _ _ _ _ h

lemma assign_snow_depth_hasCol (df : DF) (m : String)
    (h : (m == "snow_depth_m") = false) :
    (assign_snow_depth df).1.hasCol m = df.hasCol m := by
  unfold assign_snow_depth
  by_cases c : df.hasCol "snow_depth_m" = true
  · rw [if_pos c, DF.hasCol_setCol, h]
    simp
  · rw [if_neg c, DF.hasCol_setScalar, h]
    simp

lemma length_roll1 (l : List ℝ) : (roll1 l).length = l.length := by
  cases l with
  | nil => rfl
  | cons a as =>
    simp [roll1, List.length_dropLast]

lemma length_overwriteHead (l : List ℝ) : (overwriteHead l).length = l.length := by
  match l with
  | [] => rfl
  | [a] => rfl
  | a :: b :: rest => rfl

lemma overwriteHead_roll1 (a b : ℝ) (t : List ℝ) :
    overwriteHead (roll1 (a :: b :: t)) = a :: (a :: b :: t).dropLast := by
  have h : roll1 (a :: b :: t)
      = (a :: b :: t).getLast (by simp) :: a :: (b :: t).dropLast := by
    simp [roll1]
  rw [h]
  rfl

lemma headI_scanl (f : ℝ → ℝ → ℝ) (b : ℝ) (l : List ℝ) :
    (l.scanl f b).headI = b := by
  cases l <;> rfl

lemma chain_scanl_add (b : ℝ) (l : List ℝ) (h : ∀ s ∈ l, 0 ≤ s) :
    List.Chain' (fun p q => p ≤ q) (l.scanl (fun u v => u + v) b) := by
  induction l generalizing b with
  | nil => simp
  | cons a l ih =>
    rw [List.scanl_cons, List.singleton_append]
    rw [List.chain'_cons']
    constructor
    · intro y hy
      rw [List.head?_eq_head (by cases l <;> simp)] at hy
      have hhead : (l.scanl (fun u v => u + v) (b + a)).head (by cases l <;> simp)
          = b + a := by
        cases l <;> rfl
      rw [hhead] at hy
      cases hy
      have ha : 0 ≤ a := h a (List.mem_cons_self a l)
      linarith
    · exact ih (b + a) (fun s hs => h s (List.mem_cons_of_mem a hs))

lemma length_cumsum (l : List ℝ) : (cumsum l).length = l.length := by
  simp [cumsum, List.length_scanl]

lemma chain_cumsum (l : List ℝ) (h : ∀ s ∈ l, 0 ≤ s) :
    List.Chain' (fun p q => p ≤ q) (cumsum l) :=
  (chain_scanl_add 0 l h).tail

lemma dist_steps_eq (xd : List ℝ) : ∀ (xt yd yt : List ℝ),
    ((xd.zipWith (fun u v => (u - v) ^ 2) xt).zipWith (fun s t => s + t)
        (yd.zipWith (fun u v => (u - v) ^ 2) yt)).map Real.sqrt
      = (xt.zip yt).zipWith
          (fun p q => Real.sqrt ((p.1 - q.1) ^ 2 + (p.2 - q.2) ^ 2))
          (xd.zip yd) := by
  induction xd with
  | nil => intro xt yd yt; simp
  | cons a xd ih =>
    intro xt yd yt
    cases xt with
    | nil => simp
    | cons b xt =>
      cases yd with
      | nil => simp
      | cons c yd =>
        cases yt with
        | nil => simp
        | cons d yt =>
          simp only [List.zipWith_cons_cons, List.map_cons, List.zip_cons_cons]
          congr 1
          · congr 1
            ring
          · exact ih xt yd yt

end MosaicThickness

namespace ReformatMagnaprobe

lemma not_p_of_mem_splitOnP (p : Char → Bool) (l : List Char) :
    ∀ w ∈ l.splitOnP p, ∀ x ∈ w, ¬ p x := by
  induction l with
  | nil =>
    intro w hw x hx
    simp only [List.splitOnP_nil, List.mem_singleton] at hw
    subst hw
    simp at hx
  | cons a l ih =>
    intro w hw x hx
    rw [List.splitOnP_cons] at hw
    by_cases hpa : p a
    · rw [if_pos hpa] at hw
      rcases List.mem_cons.mp hw with rfl | hw2
      · simp at hx
      · exact ih w hw2 x hx
    · rw [if_neg hpa] at hw
      obtain ⟨h0, t0, hsp⟩ : ∃ h0 t0, l.splitOnP p = h0 :: t0 := by
        cases hsp : l.splitOnP p with
        | nil => exact absurd hsp (List.splitOnP_ne_nil p l)
        | cons h0 t0 => exact ⟨h0, t0, rfl⟩
      rw [hsp, List.modifyHead_cons] at hw
      rcases List.mem_cons.mp hw with rfl | hw2
      · rcases List.mem_cons.mp hx with rfl | hx2
        · exact hpa
        · exact ih h0 (by rw [hsp]; exact List.mem_cons_self _ _) x hx2
      · exact ih w (by rw [hsp]; exact List.mem_cons_of_mem _ hw2) x hx

lemma mem_of_mem_splitOnP (p : Char → Bool) (l : List Char) :
    ∀ w ∈ l.splitOnP p, ∀ x ∈ w, x ∈ l := by
  induction l with
  | nil =>
    intro w hw x hx
    simp only [List.splitOnP_nil, List.mem_singleton] at hw
    subst hw
    simp at hx
  | cons a l ih =>
    intro w hw x hx
    rw [List.splitOnP_cons] at hw
    by_cases hpa : p a
    · rw [if_pos hpa] at hw
      rcases List.mem_cons.mp hw with rfl | hw2
      · simp at hx
      · exact List.mem_cons_of_mem a (ih w hw2 x hx)
    · rw [if_neg hpa] at hw
      obtain ⟨h0, t0, hsp⟩ : ∃ h0 t0, l.splitOnP p = h0 :: t0 := by
        cases hsp : l.splitOnP p with
        | nil => exact absurd hsp (List.splitOnP_ne_nil p l)
        | cons h0 t0 => exact ⟨h0, t0, rfl⟩
      rw [hsp, List.modifyHead_cons] at hw
      rcases List.mem_cons.mp hw with rfl | hw2
      · rcases List.mem_cons.mp hx with rfl | hx2
        · exact List.mem_cons_self _ _
        · exact List.mem_cons_of_mem a
            (ih h0 (by rw [hsp]; exact List.mem_cons_self _ _) x hx2)
      · exact List.mem_cons_of_mem a
          (ih w (by rw [hsp]; exact List.mem_cons_of_mem _ hw2) x hx)

lemma sep_not_mem_of_mem_splitOn (sep : Char) (l w : List Char)
    (hw : w ∈ l.splitOn sep) : sep ∉ w := by
  intro hmem
  rw [List.splitOn] at hw
  have := not_p_of_mem_splitOnP (fun x => x == sep) l w hw sep hmem
  simp at this

lemma intercalate_cons₂ (sep : Char) (w w2 : List Char) (L2 : List (List Char)) :
    List.intercalate [sep] (w :: w2 :: L2)
      = w ++ sep :: List.intercalate [sep] (w2 :: L2) := by
  simp [List.intercalate, List.intersperse_cons_cons]

lemma mem_intercalate' (sep : Char) (L : List (List Char)) :
    ∀ x ∈ List.intercalate [sep] L, x = sep ∨ ∃ w ∈ L, x ∈ w := by
  induction L with
  | nil =>
    intro x hx
    simp [List.intercalate] at hx
  | cons w L ih =>
    intro x hx
    cases L with
    | nil =>
      right
      refine ⟨w, by simp, ?_⟩
      simpa [List.intercalate] using hx
    | cons w2 L2 =>
      rw [intercalate_cons₂] at hx
      rcases List.mem_append.mp hx with hxw | hxr
      · exact Or.inr ⟨w, List.mem_cons_self _ _, hxw⟩
      · rcases List.mem_cons.mp hxr with rfl | hxi
        · exact Or.inl rfl
        · rcases ih x hxi with rfl | ⟨w3, hw3, hxw3⟩
          · exact Or.inl rfl
          · exact Or.inr ⟨w3, List.mem_cons_of_mem _ hw3, hxw3⟩

lemma asciiLower_cases (c : Char) :
    asciiLower c = c ∨ asciiLower c ∈ ("abcdefghijklmnopqrstuvwxyz".toList) := by
  unfold asciiLower
  split
  all_goals first
    | (right; decide)
    | (left; rfl)

lemma asciiLower_of_lower (c : Char)
    (h : c ∈ ("abcdefghijklmnopqrstuvwxyz".toList)) : asciiLower c = c := by
  fin_cases h <;> decide

lemma asciiLower_idem (c : Char) : asciiLower (asciiLower c) = asciiLower c := by
  rcases asciiLower_cases c with h | h
  · rw [h]
    exact h
  · exact asciiLower_of_lower _ h

lemma asciiLower_eq_comma (c : Char) (h : asciiLower c = ',') : c = ',' := by
  rcases asciiLower_cases c with h2 | h2
  · rw [h2] at h
    exact h
  · rw [h] at h2
    exact absurd h2 (by decide)

lemma dropWhile_eq_self_of (p : Char → Bool) (l : List Char)
    (h : ∀ x ∈ l, ¬ p x) : l.dropWhile p = l := by
  cases l with
  | nil => rfl
  | cons a l =>
    rw [List.dropWhile_cons, if_neg (h a (List.mem_cons_self a l))]

lemma pyStrip_eq_self (l : List Char) (h : ∀ x ∈ l, ¬ isPySpace x) :
    pyStrip l = l := by
  unfold pyStrip
  rw [dropWhile_eq_self_of _ _ h]
  rw [dropWhile_eq_self_of _ _ (fun x hx => h x (List.mem_reverse.mp hx))]
  rw [List.reverse_reverse]

lemma pyStrip_subset (l : List Char) : ∀ x ∈ pyStrip l, x ∈ l := by
  intro x hx
  unfold pyStrip at hx
  have h1 : x ∈ (l.dropWhile isPySpace).reverse.dropWhile isPySpace :=
    List.mem_reverse.mp hx
  have h2 : x ∈ (l.dropWhile isPySpace).reverse :=
    (List.dropWhile_sublist _).subset h1
  have h3 : x ∈ l.dropWhile isPySpace := List.mem_reverse.mp h2
  exact (List.dropWhile_sublist _).subset h3

lemma mem_canonField (f : List Char) (x : Char) (hx : x ∈ canonField f) :
    x = '_' ∨ ((∃ y ∈ f, x = asciiLower y) ∧ isPySpace x = false
      ∧ ¬ (x = '(' ∨ x = ')')) := by
  unfold canonField at hx
  rcases mem_intercalate' '_' _ x hx with rfl | ⟨w, hw, hxw⟩
  · exact Or.inl rfl
  · right
    unfold pySplitWs at hw
    have hw2 := (List.mem_filter.mp hw).1
    have hsp : ¬ isPySpace x = true := not_p_of_mem_splitOnP _ _ w hw2 x hxw
    have hxl : x ∈ ((pyStrip f).map asciiLower).filter
        (fun c => ¬ (c = '(' ∨ c = ')')) := mem_of_mem_splitOnP _ _ w hw2 x hxw
    have hfo := List.mem_filter.mp hxl
    rcases List.mem_map.mp hfo.1 with ⟨y, hy, rfl⟩
    refine ⟨⟨y, pyStrip_subset f y hy, rfl⟩, by simpa using hsp, ?_⟩
    simpa using hfo.2

lemma intercalate_single (sep : Char) (w : List Char) :
    List.intercalate [sep] [w] = w := by
  simp [List.intercalate]

lemma canonField_idem (f : List Char) :
    canonField (canonField f) = canonField f := by
  have hchars : ∀ x ∈ canonField f,
      isPySpace x = false ∧ asciiLower x = x ∧ ¬ (x = '(' ∨ x = ')') := by
    intro x hx
    rcases mem_canonField f x hx with rfl | ⟨⟨y, _, rfl⟩, hsp, hpar⟩
    · exact ⟨by decide, by decide, by decide⟩
    · exact ⟨hsp, asciiLower_idem y, hpar⟩
  set c := canonField f with hc
  by_cases hcnil : c = []
  · rw [hcnil]
    decide
  · unfold canonField
    rw [pyStrip_eq_self c (fun x hx => by simp [(hchars x hx).1])]
    have hmap : c.map asciiLower = c := by
      have hcg := List.map_congr_left (fun x hx => (hchars x hx).2.1)
      exact hcg.trans (List.map_id' c)
    rw [hmap]
    have hfil : c.filter (fun ch => ¬ (ch = '(' ∨ ch = ')')) = c := by
      rw [List.filter_eq_self]
      intro a ha
      simpa using (hchars a ha).2.2
    rw [hfil]
    unfold pySplitWs
    rw [List.splitOnP_eq_single _ _ (fun x hx => by simp [(hchars x hx).1])]
    rw [show ([c].filter (fun w => w ≠ [])) = [c] by simp [hcnil]]
    exact intercalate_single '_' c

lemma comma_not_mem_canonField (w : List Char) (hw : ',' ∉ w) :
    ',' ∉ canonField w := by
  intro hmem
  rcases mem_canonField w ',' hmem with h | ⟨⟨y, hy, hyl⟩, _, _⟩
  · exact absurd h (by decide)
  · exact hw (asciiLower_eq_comma y hyl.symm ▸ hy)

lemma splitOn_reformat_header (h : List Char) :
    (reformat_header h).splitOn ',' = (h.splitOn ',').map canonField := by
  unfold reformat_header
  apply List.splitOn_intercalate
  · intro l hl
    rcases List.mem_map.mp hl with ⟨w, hw, rfl⟩
    exact comma_not_mem_canonField w (sep_not_mem_of_mem_splitOn ',' h w hw)
  · intro heq
    rw [List.map_eq_nil_iff] at heq
    rw [List.splitOn] at heq
    exact List.splitOnP_ne_nil _ h heq

lemma reformat_header_idem (header : List Char) :
    reformat_header (reformat_header header) = reformat_header header := by
  have hstep : reformat_header (reformat_header header)
      = List.intercalate [',']
          (((reformat_header header).splitOn ',').map canonField) := rfl
  rw [hstep, splitOn_reformat_header]
  have hmm : ((header.splitOn ',').map canonField).map canonField
      = (header.splitOn ',').map canonField := by
    have hpt : ∀ w ∈ (header.splitOn ',').map canonField,
        canonField w = w := by
      intro w hw
      rcases List.mem_map.mp hw with ⟨v, _, rfl⟩
      exact canonField_idem v
    calc ((header.splitOn ',').map canonField).map canonField
        = ((header.splitOn ',').map canonField).map (fun w => w) :=
          List.map_congr_left hpt
      _ = (header.splitOn ',').map canonField :=
          List.map_id' _
  rw [hmm]
  rfl

lemma mem_of_containsSeq (pat : List Char) (l : List Char)
    (h : containsSeq pat l = true) : ∀ x ∈ pat, x ∈ l := by
  induction l with
  | nil =>
    intro x hx
    unfold containsSeq at h
    rw [List.isPrefixOf_iff_prefix] at h
    rw [List.prefix_nil.mp h] at hx
    simp at hx
  | cons c cs ih =>
    intro x hx
    unfold containsSeq at h
    rcases Bool.or_eq_true_iff.mp h with h1 | h2
    · rw [List.isPrefixOf_iff_prefix] at h1
      exact h1.subset hx
    · exact List.mem_cons_of_mem c (ih h2 x hx)

lemma check_missing_reformat_header (header : List Char) :
    check_missing_comma_in_header (reformat_header header) = false := by
  by_contra hcon
  have htrue : check_missing_comma_in_header (reformat_header header) = true := by
    cases hval : check_missing_comma_in_header (reformat_header header)
    · exact absurd hval hcon
    · rfl
  unfold check_missing_comma_in_header at htrue
  have hparen : '(' ∈ reformat_header header :=
    mem_of_containsSeq _ _ htrue '(' (by decide)
  unfold reformat_header at hparen
  rcases mem_intercalate' ',' _ '(' hparen with h | ⟨w, hw, hmem⟩
  · exact absurd h (by decide)
  · rcases List.mem_map.mp hw with ⟨w0, _, rfl⟩
    rcases mem_canonField w0 '(' hmem with h | ⟨_, _, hpar⟩
    · exact absurd h (by decide)
    · exact hpar (Or.inl rfl)

lemma check_column_counts_len_congr (h1 h2 : List Char)
    (data : List (List Char))
    (hlen : (h1.splitOn ',').length = (h2.splitOn ',').length) :
    check_column_counts h1 data = check_column_counts h2 data := by
  unfold check_column_counts
  rw [hlen]

lemma reformat_pass2 (h : List Char) (d : List (List Char))
    (hchk : check_column_counts h d = true) :
    reformat_combined_file (reformat_header h) d
      = .ok (reformat_header h, d) := by
  have hc2 : check_column_counts (reformat_header h) d = true := by
    rw [check_column_counts_len_congr (reformat_header h) h d
      (by rw [splitOn_reformat_header, List.length_map])]
    exact hchk
  unfold reformat_combined_file
  rw [if_pos hc2, reformat_header_idem]

lemma reformat_ok_shape (h0 : List Char) (d0 : List (List Char))
    (rh : List Char) (rd : List (List Char))
    (h : reformat_combined_file h0 d0 = .ok (rh, rd)) :
    ∃ h1 d1, check_column_counts h1 d1 = true
      ∧ rh = reformat_header h1 ∧ rd = d1 := by
  unfold reformat_combined_file at h
  by_cases hchk : check_column_counts h0 d0 = true
  · rw [if_pos hchk] at h
    injection h with h1
    exact ⟨h0, d0, hchk, (congrArg Prod.fst h1).symm, (congrArg Prod.snd h1).symm⟩
  · rw [if_neg hchk] at h
    dsimp only at h
    set header1 := if h0.getLast? = some ',' then remove_trailing_comma h0 else h0
      with hh1
    set header2 := if check_missing_comma_in_header header1 then
        fix_missing_comma_in_header header1 else header1 with hh2
    set data1 := if check_data_fields header2 d0 then
        fix_data_fields header2 d0 else d0 with hd1
    by_cases hcc : check_column_counts header2 data1 = true
    · rw [if_neg (fun hn => hn hcc)] at h
      injection h with h1
      exact ⟨header2, data1, hcc,
        (congrArg Prod.fst h1).symm, (congrArg Prod.snd h1).symm⟩
    · rw [if_pos hcc] at h
      cases h

end ReformatMagnaprobe

end MosaicVerify

namespace MosaicVerify

namespace CleanMosaicData

/-- C4: for every series and bounds, `check_data_range` with `fix=True` (and the
default fill value `np.nan`, i.e. `none`) keeps the length, leaves already-null
entries null, leaves in-bound entries unchanged, replaces out-of-bound non-null
entries with the fill value, and emits exactly one warning per call precisely
when at least one non-null value is out of range (else none). -/
theorem c4_check_data_range_clamp (series : List (Option ℚ)) (minv maxv : ℚ)
    (fix : Bool) (fill : Option ℚ) (i : Nat) (x : ℚ) :
    (check_data_range series minv maxv true none).1.length = series.length
    ∧ (series[i]? = some none →
        (check_data_range series minv maxv true none).1[i]? = some none)
    ∧ (series[i]? = some (some x) → minv ≤ x → x ≤ maxv →
        (check_data_range series minv maxv true none).1[i]? = some (some x))
    ∧ (series[i]? = some (some x) → ¬(minv ≤ x ∧ x ≤ maxv) →
        (check_data_range series minv maxv true none).1[i]? = some none)
    ∧ ((check_data_range series minv maxv fix fill).2
        = if series.any (fun v => v.isSome && !(between minv maxv v)) then 1 else 0) := by
  rw [check_data_range_fix_eq]
  refine ⟨by simp, ?_, ?_, ?_, check_data_range_warn_eq series minv maxv fix fill⟩
  · intro h
    rw [List.getElem?_map, h]
    rfl
  · intro h h1 h2
    rw [List.getElem?_map, h]
    simp [between, h1, h2]
  · intro h hout
    rw [List.getElem?_map, h]
    have hb : between minv maxv (some x) = false := by
      simp only [between, Bool.and_eq_true, decide_eq_true_eq, Bool.and_eq_false_iff]
      by_cases h1 : minv ≤ x
      · right
        have h2 : ¬ x ≤ maxv := fun h2 => hout ⟨h1, h2⟩
        simpa using h2
      · left
        simp [h1]
    simp [hb]

/-- Witness for C4 at a concrete series. -/
theorem c4_check_data_range_clamp_witness :
    (check_data_range [some 5, none, some (1 : ℚ)] 0 2 true none).1[1]? = some none
    ∧ (check_data_range [some 5, none, some (1 : ℚ)] 0 2 true none).1[2]?
        = some (some (1 : ℚ))
    ∧ (check_data_range [some 5, none, some (1 : ℚ)] 0 2 true none).1[0]? = some none :=
  ⟨(c4_check_data_range_clamp [some 5, none, some (1 : ℚ)] 0 2 true none 1 0).2.1
      (by rfl),
   (c4_check_data_range_clamp [some 5, none, some (1 : ℚ)] 0 2 true none 2 1).2.2.1
      (by rfl) (by norm_num) (by norm_num),
   (c4_check_data_range_clamp [some 5, none, some (1 : ℚ)] 0 2 true none 0 5).2.2.2.1
      (by rfl) (by norm_num)⟩

/-- C1 (code bug): on a transect path whose containing-directory identifier
carries date `20200102` while the filename carries date `20200101`,
`parse_filepath` returns the file attributes instead of raising, because
`if not activity_and_file_attrs_match:` tests the truthiness of the function
object (the call parentheses are missing) and a function object is truthy,
so the `raise ValueError` is dead code; moreover the comparison helper
itself raises `NameError` on any nonempty attribute dict (its dict
comprehension uses the unbound name `k`), so it could not have performed the
cross-check either. -/
theorem c1_parse_filepath_code_bug :
    parse_filepath ("20200102-PS122-1_1-1".toList)
        ("magna+gem2-transect-20200101-PS122-1_1-1_ROV.csv".toList)
      = .ok [("content", "magna+gem2".toList), ("transect", "transect".toList),
             ("date", "20200101".toList), ("campaign", "PS122".toList),
             ("leg", "1".toList), ("activity2", "1".toList),
             ("activity3", "1".toList), ("location", "ROV".toList)]
    ∧ parse_activity_id ("20200102-PS122-1_1-1".toList)
      = .ok [("date", "20200102".toList), ("campaign", "PS122".toList),
             ("leg", "1".toList), ("activity2", "1".toList),
             ("activity3", "1".toList)]
    ∧ ("20200101".toList ≠ "20200102".toList)
    ∧ activity_and_file_attrs_match
        [("date", "20200102".toList), ("campaign", "PS122".toList),
         ("leg", "1".toList), ("activity2", "1".toList),
         ("activity3", "1".toList)]
        [("content", "magna+gem2".toList), ("transect", "transect".toList),
         ("date", "20200101".toList), ("campaign", "PS122".toList),
         ("leg", "1".toList), ("activity2", "1".toList),
         ("activity3", "1".toList), ("location", "ROV".toList)]
      = .error (.nameError "name k is not defined") :=
  ⟨by rfl, by rfl, by decide, by rfl⟩

end CleanMosaicData

namespace MosaicThickness

/-- C5: `assign_ice_thickness` consults the thickness channels in strict
priority order: if `ice_thickness_18khz_ip_m` is present it becomes
`ice_thickness_m` with flag 1 (and no warning); else if
`ice_thickness_f18325hz_hcp_i_m` is present it becomes `ice_thickness_m`
with flag 2; if neither is present `ice_thickness_m` is all-NaN with flag 0
and one warning is emitted, no error being raised (the embedding is total). -/
theorem c5_assign_ice_thickness_priority :
    (∀ df : DF, df.hasCol "ice_thickness_18khz_ip_m" = true →
      (assign_ice_thickness df).1.getCol "ice_thickness_m"
          = df.getCol "ice_thickness_18khz_ip_m"
        ∧ (assign_ice_thickness df).1.getCol "ice_thickness_flag"
          = List.replicate df.nrows (some 1)
        ∧ (assign_ice_thickness df).2 = [])
    ∧ (∀ df : DF, df.hasCol "ice_thickness_18khz_ip_m" = false →
        df.hasCol "ice_thickness_f18325hz_hcp_i_m" = true →
      (assign_ice_thickness df).1.getCol "ice_thickness_m"
          = df.getCol "ice_thickness_f18325hz_hcp_i_m"
        ∧ (assign_ice_thickness df).1.getCol "ice_thickness_flag"
          = List.replicate df.nrows (some 2))
    ∧ (∀ df : DF, df.hasCol "ice_thickness_18khz_ip_m" = false →
        df.hasCol "ice_thickness_f18325hz_hcp_i_m" = false →
      (assign_ice_thickness df).1.getCol "ice_thickness_m"
          = List.replicate df.nrows none
        ∧ (assign_ice_thickness df).1.getCol "ice_thickness_flag"
          = List.replicate df.nrows (some 0)
        ∧ (assign_ice_thickness df).2.length = 1) := by
  refine ⟨?_, ?_, ?_⟩
  · intro df h1
    have e : assign_ice_thickness df
        = ((df.setCol "ice_thickness_m"
              (df.getCol "ice_thickness_18khz_ip_m")).setScalar
            "ice_thickness_flag" (some 1), []) := by
      unfold assign_ice_thickness
      rw [if_pos h1]
    rw [e]
    refine ⟨?_, ?_, rfl⟩
    · rw [DF.getCol_setScalar_other _ _ _ _ (by decide), DF.getCol_setCol_self]
    · rw [DF.getCol_setScalar_self, DF.nrows_setCol]
  · intro df h1 h2
    have e : assign_ice_thickness df
        = ((df.setCol "ice_thickness_m"
              (df.getCol "ice_thickness_f18325hz_hcp_i_m")).setScalar
            "ice_thickness_flag" (some 2),
          ["Using ice_thickness_f18325hz_hcp_i_m for ice thickness"]) := by
      unfold assign_ice_thickness
      rw [if_neg (by rw [h1]; simp), if_pos h2]
    rw [e]
    constructor
    · rw [DF.getCol_setScalar_other _ _ _ _ (by decide), DF.getCol_setCol_self]
    · rw [DF.getCol_setScalar_self, DF.nrows_setCol]
  · intro df h1 h2
    have e : assign_ice_thickness df
        = (((df.setScalar "ice_thickness_m" none).setScalar
            "ice_thickness_flag" (some 0)),
          ["Expected ice_thickness column not found"]) := by
      unfold assign_ice_thickness
      rw [if_neg (by rw [h1]; simp), if_neg (by rw [h2]; simp)]
    rw [e]
    refine ⟨?_, ?_, rfl⟩
    · rw [DF.getCol_setScalar_other _ _ _ _ (by decide), DF.getCol_setScalar_self]
    · rw [DF.getCol_setScalar_self, DF.nrows_setScalar]

/-- Witness for C5 on three one-row frames, one per priority case. -/
theorem c5_assign_ice_thickness_priority_witness :
    (assign_ice_thickness
        ⟨1, [("ice_thickness_18khz_ip_m", [some 10])]⟩).1.getCol "ice_thickness_m"
      = [some 10]
    ∧ (assign_ice_thickness
        ⟨1, [("ice_thickness_f18325hz_hcp_i_m", [some 13])]⟩).1.getCol
          "ice_thickness_flag"
      = [some 2]
    ∧ (assign_ice_thickness
        ⟨1, ([] : List (String × Col))⟩).1.getCol "ice_thickness_m"
      = [none] :=
  ⟨((c5_assign_ice_thickness_priority.1
      ⟨1, [("ice_thickness_18khz_ip_m", [some 10])]⟩ (by rfl)).1).trans rfl,
   ((c5_assign_ice_thickness_priority.2.1
      ⟨1, [("ice_thickness_f18325hz_hcp_i_m", [some 13])]⟩ (by rfl) (by rfl)).2).trans rfl,
   ((c5_assign_ice_thickness_priority.2.2
      ⟨1, ([] : List (String × Col))⟩ (by rfl) (by rfl)).1).trans rfl⟩

/-- C7: `assign_melt_pond_depth` and `assign_snow_depth` clamp with the
`> 0` threshold (a present cell `x` stays `x` when `0 < x` and becomes
exactly `0` otherwise, rows being kept), both map `[0, 0.3, -1]` to
`[0, 0.3, 0]`, and they differ on a missing column: melt-pond is synthesized
as all zeros with one warning while snow is synthesized as all NaN with one
warning. -/
theorem c7_assign_depth_clamp :
    (∀ (df : DF) (i : Nat) (x : ℚ), df.hasCol "melt_pond_depth_m" = true →
        (df.getCol "melt_pond_depth_m")[i]? = some (some x) →
        ((assign_melt_pond_depth df).1.getCol "melt_pond_depth_m")[i]?
          = some (if 0 < x then some x else some 0))
    ∧ (∀ df : DF, df.hasCol "melt_pond_depth_m" = true →
        ((assign_melt_pond_depth df).1.getCol "melt_pond_depth_m").length
          = (df.getCol "melt_pond_depth_m").length)
    ∧ (∀ df : DF, df.hasCol "melt_pond_depth_m" = false →
        (assign_melt_pond_depth df).1.getCol "melt_pond_depth_m"
            = List.replicate df.nrows (some 0)
          ∧ (assign_melt_pond_depth df).2.length = 1)
    ∧ ((assign_melt_pond_depth
          ⟨3, [("melt_pond_depth_m", [some 0, some (3/10), some (-1)])]⟩).1.getCol
            "melt_pond_depth_m"
        = [some 0, some (3/10), some 0])
    ∧ (∀ (df : DF) (i : Nat) (x : ℚ), df.hasCol "snow_depth_m" = true →
        (df.getCol "snow_depth_m")[i]? = some (some x) →
        ((assign_snow_depth df).1.getCol "snow_depth_m")[i]?
          = some (if 0 < x then some x else some 0))
    ∧ (∀ df : DF, df.hasCol "snow_depth_m" = true →
        ((assign_snow_depth df).1.getCol "snow_depth_m").length
          = (df.getCol "snow_depth_m").length)
    ∧ (∀ df : DF, df.hasCol "snow_depth_m" = false →
        (assign_snow_depth df).1.getCol "snow_depth_m"
            = List.replicate df.nrows none
          ∧ (assign_snow_depth df).2.length = 1)
    ∧ ((assign_snow_depth
          ⟨3, [("snow_depth_m", [some 0, some (3/10), some (-1)])]⟩).1.getCol
            "snow_depth_m"
        = [some 0, some (3/10), some 0]) := by
  have hpond : ∀ df : DF, df.hasCol "melt_pond_depth_m" = true →
      (assign_melt_pond_depth df).1.getCol "melt_pond_depth_m"
        = (df.getCol "melt_pond_depth_m").map
            (fun v => if gtZero v then v else some 0) := by
    intro df h
    have e : assign_melt_pond_depth df
        = (df.setCol "melt_pond_depth_m"
            ((df.getCol "melt_pond_depth_m").map
              (fun v => if gtZero v then v else some 0)), []) := by
      unfold assign_melt_pond_depth
      rw [if_pos h]
    rw [e, DF.getCol_setCol_self]
  have hsnow : ∀ df : DF, df.hasCol "snow_depth_m" = true →
      (assign_snow_depth df).1.getCol "snow_depth_m"
        = (df.getCol "snow_depth_m").map
            (fun v => if gtZero v then v else some 0) := by
    intro df h
    have e : assign_snow_depth df
        = (df.setCol "snow_depth_m"
            ((df.getCol "snow_depth_m").map
              (fun v => if gtZero v then v else some 0)), []) := by
      unfold assign_snow_depth
      rw [if_pos h]
    rw [e, DF.getCol_setCol_self]
  have hcell : ∀ (col : Col) (i : Nat) (x : ℚ), col[i]? = some (some x) →
      (col.map (fun v => if gtZero v then v else some 0))[i]?
        = some (if 0 < x then some x else some 0) := by
    intro col i x h
    rw [List.getElem?_map, h]
    simp only [Option.map]
    by_cases hx : 0 < x
    · simp [gtZero, hx]
    · simp [gtZero, hx]
  refine ⟨?_, ?_, ?_, ?_, ?_, ?_, ?_, ?_⟩
  · intro df i x h hc
    rw [hpond df h]
    exact hcell _ i x hc
  · intro df h
    rw [hpond df h, List.length_map]
  · intro df h
    have e : assign_melt_pond_depth df
        = (df.setScalar "melt_pond_depth_m" (some 0),
          ["melt_pond_depth_m not found in dataFrame; adding column of zeros"]) := by
      unfold assign_melt_pond_depth
      rw [if_neg (by rw [h]; simp)]
    rw [e]
    exact ⟨DF.getCol_setScalar_self df _ _, rfl⟩
  · rw [hpond _ (by rfl)]
    have : (⟨3, [("melt_pond_depth_m", [some 0, some (3/10), some (-1)])]⟩ :
        DF).getCol "melt_pond_depth_m" = [some 0, some (3/10), some (-1)] := rfl
    rw [this]
    norm_num [gtZero]
  · intro df i x h hc
    rw [hsnow df h]
    exact hcell _ i x hc
  · intro df h
    rw [hsnow df h, List.length_map]
  · intro df h
    have e : assign_snow_depth df
        = (df.setScalar "snow_depth_m" none,
          ["snow_depth_m not found in dataFrame;adding column of NaN"]) := by
      unfold assign_snow_depth
      rw [if_neg (by rw [h]; simp)]
    rw [e]
    exact ⟨DF.getCol_setScalar_self df _ _, rfl⟩
  · rw [hsnow _ (by rfl)]
    have : (⟨3, [("snow_depth_m", [some 0, some (3/10), some (-1)])]⟩ :
        DF).getCol "snow_depth_m" = [some 0, some (3/10), some (-1)] := rfl
    rw [this]
    norm_num [gtZero]

/-- C6: `infer_surface_type` maps a row by the 4-way case split on
(snow > 0, pond > 0): snow-only gives 1, pond-only gives -1, neither gives 2,
both gives NaN; on the spec's concrete input it yields `[1, -1, 2, NaN]`;
and in `parse_raw_combined_data` the inference runs only when the
`surface_type` column is absent from the input (when it is present, the
output column is the input column). -/
theorem c6_infer_surface_type_cases :
    (∀ (df : DF) (i : Nat) (xs xp : ℚ),
        (df.getCol "snow_depth_m")[i]? = some (some xs) →
        (df.getCol "melt_pond_depth_m")[i]? = some (some xp) →
        (0 < xs → xp ≤ 0 → (infer_surface_type df)[i]? = some (some 1))
        ∧ (xs ≤ 0 → 0 < xp → (infer_surface_type df)[i]? = some (some (-1)))
        ∧ (xs ≤ 0 → xp ≤ 0 → (infer_surface_type df)[i]? = some (some 2))
        ∧ (0 < xs → 0 < xp → (infer_surface_type df)[i]? = some none))
    ∧ (infer_surface_type
        ⟨4, [("snow_depth_m", [some (3/10), some 0, some 0, some (1/5)]),
             ("melt_pond_depth_m", [some 0, some (1/2), some 0, some (3/10)])]⟩
        = [some 1, some (-1), some 2, none])
    ∧ (∀ (dist : Col → Col → Col) (df0 out : DF) (w : List String),
        df0.hasCol "surface_type" = true →
        parse_raw_combined_data dist df0 = .ok (out, w) →
        out.getCol "surface_type" = df0.getCol "surface_type")
    ∧ (∀ (dist : Col → Col → Col) (df0 out : DF) (w : List String),
        df0.hasCol "surface_type" = false →
        parse_raw_combined_data dist df0 = .ok (out, w) →
        out.getCol "surface_type"
          = infer_surface_type
              (assign_snow_depth (assign_melt_pond_depth
                (assign_ice_thickness df0).1).1).1) := by
  have hsurf : ∀ (dist : Col → Col → Col) (df0 out : DF) (w : List String),
      parse_raw_combined_data dist df0 = .ok (out, w) →
      out.getCol "surface_type"
        = (if (assign_snow_depth (assign_melt_pond_depth
              (assign_ice_thickness df0).1).1).1.hasCol "surface_type" = true
           then (assign_snow_depth (assign_melt_pond_depth
              (assign_ice_thickness df0).1).1).1.getCol "surface_type"
           else infer_surface_type (assign_snow_depth (assign_melt_pond_depth
              (assign_ice_thickness df0).1).1).1) := by
    intro dist df0 out w h
    simp only [parse_raw_combined_data] at h
    split at h
    next o heq =>
      have hmem : "surface_type" ∈ KEEP_THESE_COLUMNS := by
        simp [KEEP_THESE_COLUMNS]
      have hg := selectCols_ok_getCol _ _ _ _ hmem heq
      have hoo : o = out := by
        injection h with h1
        exact congrArg Prod.fst h1
      rw [← hoo, hg, DF.getCol_setCol_other _ _ _ _ (by decide)]
      by_cases hpos : (assign_snow_depth (assign_melt_pond_depth
          (assign_ice_thickness df0).1).1).1.hasCol "surface_type" = true
      · rw [if_pos hpos, if_pos hpos]
      · rw [if_neg hpos, if_neg hpos, DF.getCol_setCol_self]
    next e heq =>
      cases h
  refine ⟨?_, ?_, ?_, ?_⟩
  · intro df i xs xp hs hp
    have e : infer_surface_type df
        = ((df.getCol "snow_depth_m").zip (df.getCol "melt_pond_depth_m")).map
            (fun p =>
              selectFirst
                [ (gtZero p.1 && leZero p.2, some 1),
                  (leZero p.1 && gtZero p.2, some (-1)),
                  (leZero p.1 && leZero p.2, some 2),
                  (gtZero p.1 && gtZero p.2, none) ]
                (some 0)) := rfl
    have hz : ((df.getCol "snow_depth_m").zip
        (df.getCol "melt_pond_depth_m"))[i]? = some (some xs, some xp) :=
      List.getElem?_zip_eq_some.mpr ⟨hs, hp⟩
    refine ⟨fun h1 h2 => ?_, fun h1 h2 => ?_, fun h1 h2 => ?_, fun h1 h2 => ?_⟩ <;>
      rw [e, List.getElem?_map, hz]
    · simp [selectFirst, gtZero, leZero, h1, h2]
    · have hn1 : ¬ 0 < xs := not_lt.mpr h1
      simp [selectFirst, gtZero, leZero, h1, h2, hn1]
    · have hn1 : ¬ 0 < xs := not_lt.mpr h1
      have hn2 : ¬ 0 < xp := not_lt.mpr h2
      simp [selectFirst, gtZero, leZero, h1, h2, hn1, hn2]
    · have hn1 : ¬ xs ≤ 0 := not_le.mpr h1
      have hn2 : ¬ xp ≤ 0 := not_le.mpr h2
      simp [selectFirst, gtZero, leZero, h1, h2, hn1, hn2]
  · have es : (⟨4, [("snow_depth_m", [some (3/10), some 0, some 0, some (1/5)]),
        ("melt_pond_depth_m", [some 0, some (1/2), some 0, some (3/10)])]⟩ :
          DF).getCol "snow_depth_m"
        = [some (3/10), some 0, some 0, some (1/5)] := rfl
    have ep : (⟨4, [("snow_depth_m", [some (3/10), some 0, some 0, some (1/5)]),
        ("melt_pond_depth_m", [some 0, some (1/2), some 0, some (3/10)])]⟩ :
          DF).getCol "melt_pond_depth_m"
        = [some 0, some (1/2), some 0, some (3/10)] := rfl
    show (((⟨4, _⟩ : DF).getCol "snow_depth_m").zip
        ((⟨4, _⟩ : DF).getCol "melt_pond_depth_m")).map _ = _
    rw [es, ep]
    norm_num [List.zip_cons_cons, selectFirst, gtZero, leZero]
  · intro dist df0 out w hst h
    rw [hsurf dist df0 out w h]
    have hp3 : ((assign_snow_depth (assign_melt_pond_depth
        (assign_ice_thickness df0).1).1).1).hasCol "surface_type" = true := by
      rw [assign_snow_depth_hasCol _ _ (by decide),
        assign_melt_pond_depth_hasCol _ _ (by decide),
        assign_ice_thickness_hasCol _ _ (by decide) (by decide), hst]
    simp only [hp3, if_true]
    rw [assign_snow_depth_getCol_other _ _ (by decide),
      assign_melt_pond_depth_getCol_other _ _ (by decide),
      assign_ice_thickness_getCol_other _ _ (by decide) (by decide)]
  · intro dist df0 out w hst h
    rw [hsurf dist df0 out w h]
    have hp3 : ((assign_snow_depth (assign_melt_pond_depth
        (assign_ice_thickness df0).1).1).1).hasCol "surface_type" = false := by
      rw [assign_snow_depth_hasCol _ _ (by decide),
        assign_melt_pond_depth_hasCol _ _ (by decide),
        assign_ice_thickness_hasCol _ _ (by decide) (by decide), hst]
    rw [hp3]
    simp

/-- Witness for C6: the pointwise case split at a concrete frame, and the
pipeline guard at concrete frames with and without a `surface_type` column. -/
theorem c6_infer_surface_type_cases_witness :
    (infer_surface_type
        ⟨1, [("snow_depth_m", [some 2]), ("melt_pond_depth_m", [some 0])]⟩)[0]?
      = some (some 1) := by
  have h := (c6_infer_surface_type_cases.1
    ⟨1, [("snow_depth_m", [some 2]), ("melt_pond_depth_m", [some 0])]⟩
    0 2 0 (by rfl) (by rfl)).1
  exact h (by norm_num) (by norm_num)

/-- C10 (implicit): when the snow or pond cell of a row is NaN, every one of
the four depth-sign conditions is false, so `np.select` falls back to its
default and `infer_surface_type` returns 0 there, a value outside the
documented surface-type code set 1, -1, 2, NaN. -/
theorem c10_infer_surface_type_nan_default (df : DF) (i : Nat)
    (vs vp : Option ℚ)
    (hs : (df.getCol "snow_depth_m")[i]? = some vs)
    (hp : (df.getCol "melt_pond_depth_m")[i]? = some vp)
    (hnan : vs = none ∨ vp = none) :
    (infer_surface_type df)[i]? = some (some 0)
    ∧ (some (0 : ℚ)) ∉ ([some 1, some (-1), some 2, none] : List (Option ℚ)) := by
  constructor
  · have e : infer_surface_type df
        = ((df.getCol "snow_depth_m").zip (df.getCol "melt_pond_depth_m")).map
            (fun p =>
              selectFirst
                [ (gtZero p.1 && leZero p.2, some 1),
                  (leZero p.1 && gtZero p.2, some (-1)),
                  (leZero p.1 && leZero p.2, some 2),
                  (gtZero p.1 && gtZero p.2, none) ]
                (some 0)) := rfl
    have hz : ((df.getCol "snow_depth_m").zip
        (df.getCol "melt_pond_depth_m"))[i]? = some (vs, vp) :=
      List.getElem?_zip_eq_some.mpr ⟨hs, hp⟩
    rw [e, List.getElem?_map, hz]
    rcases hnan with rfl | rfl
    · simp [selectFirst, gtZero, leZero]
    · simp [selectFirst, gtZero, leZero]
  · intro hmem
    simp only [List.mem_cons, List.not_mem_nil, or_false] at hmem
    rcases hmem with h | h | h | h <;> first
      | exact Option.noConfusion h
      | (injection h with hval; norm_num at hval)

/-- Witness for C10 at a concrete frame with a NaN snow cell. -/
theorem c10_infer_surface_type_nan_default_witness :
    (infer_surface_type
        ⟨1, [("snow_depth_m", [none]), ("melt_pond_depth_m", [some 1])]⟩)[0]?
      = some (some 0) :=
  (c10_infer_surface_type_nan_default
    ⟨1, [("snow_depth_m", [none]), ("melt_pond_depth_m", [some 1])]⟩
    0 none (some 1) (by rfl) (by rfl) (Or.inl rfl)).1

/-- C8 counterexample: on the two points (0,0) and (3,4), `transect_distance`
returns `[0, 5]` — entry 0 is `0`, not the distance `5` between points 0 and
1 as the claim asserts. -/
theorem c8_transect_distance_counterexample :
    transect_distance [0, 3] [0, 4] = [0, 5]
    ∧ Real.sqrt (((3 : ℝ) - 0) ^ 2 + ((4 : ℝ) - 0) ^ 2) = 5
    ∧ (0 : ℝ) ≠ 5 := by
  have h0 : Real.sqrt (((0 : ℝ) - 0) ^ 2 + ((0 : ℝ) - 0) ^ 2) = 0 := by
    rw [show ((0 : ℝ) - 0) ^ 2 + ((0 : ℝ) - 0) ^ 2 = 0 by norm_num]
    exact Real.sqrt_zero
  have h1 : Real.sqrt (((0 : ℝ) - 3) ^ 2 + ((0 : ℝ) - 4) ^ 2) = 5 := by
    rw [show ((0 : ℝ) - 3) ^ 2 + ((0 : ℝ) - 4) ^ 2 = 5 ^ 2 by norm_num]
    exact Real.sqrt_sq (by norm_num)
  refine ⟨?_, ?_, by norm_num⟩
  · show cumsum ([Real.sqrt (((0 : ℝ) - 0) ^ 2 + ((0 : ℝ) - 0) ^ 2),
        Real.sqrt (((0 : ℝ) - 3) ^ 2 + ((0 : ℝ) - 4) ^ 2)]) = [0, 5]
    rw [h0, h1]
    show [(0 : ℝ) + 0, 0 + 0 + 5] = [0, 5]
    norm_num
  · rw [show ((3 : ℝ) - 0) ^ 2 + ((4 : ℝ) - 0) ^ 2 = 5 ^ 2 by norm_num]
    exact Real.sqrt_sq (by norm_num)

/-- C8 amended: for at least two points, `transect_distance` is the
cumulative sum of the step list whose first step is `0` (the first point's
"previous point" is the first point itself, since `x1[0]` is overwritten
with `x1[1]`, the rolled copy of `x0[0]`) and whose later steps are the
consecutive Euclidean point-to-point distances; the series keeps the length
of the input and starts at `0`, and it is monotonically non-decreasing. -/
theorem c8_transect_distance_amended (x y : List ℝ)
    (hx : 2 ≤ x.length) (hxy : x.length = y.length) :
    transect_distance x y
      = cumsum (0 :: (x.tail.zip y.tail).zipWith
          (fun p q => Real.sqrt ((p.1 - q.1) ^ 2 + (p.2 - q.2) ^ 2))
          (x.dropLast.zip y.dropLast))
    ∧ (transect_distance x y).length = x.length
    ∧ (transect_distance x y).headI = 0
    ∧ List.Chain' (fun p q => p ≤ q) (transect_distance x y) := by
  match x, hx with
  | a :: b :: t, _ =>
    match y, hxy with
    | c :: d :: s, hxy =>
      have e : transect_distance (a :: b :: t) (c :: d :: s)
          = cumsum (0 :: ((a :: b :: t).tail.zip (c :: d :: s).tail).zipWith
              (fun p q => Real.sqrt ((p.1 - q.1) ^ 2 + (p.2 - q.2) ^ 2))
              ((a :: b :: t).dropLast.zip (c :: d :: s).dropLast)) := by
        unfold transect_distance
        rw [overwriteHead_roll1 a b t, overwriteHead_roll1 c d s]
        dsimp only
        have hdx : (a :: (a :: b :: t).dropLast).zipWith
            (fun u v => (u - v) ^ 2) (a :: b :: t)
            = ((a - a) ^ 2) :: (a :: b :: t).dropLast.zipWith
                (fun u v => (u - v) ^ 2) (b :: t) := by
          rw [show (a :: b :: t) = a :: (b :: t) from rfl]
          rw [List.zipWith_cons_cons]
        have hdy : (c :: (c :: d :: s).dropLast).zipWith
            (fun u v => (u - v) ^ 2) (c :: d :: s)
            = ((c - c) ^ 2) :: (c :: d :: s).dropLast.zipWith
                (fun u v => (u - v) ^ 2) (d :: s) := by
          rw [show (c :: d :: s) = c :: (d :: s) from rfl]
          rw [List.zipWith_cons_cons]
        rw [hdx, hdy, List.zipWith_cons_cons, List.map_cons]
        rw [dist_steps_eq]
        rw [show (a - a) ^ 2 + (c - c) ^ 2 = (0 : ℝ) by ring, Real.sqrt_zero]
        rfl
      refine ⟨e, ?_, ?_, ?_⟩
      · rw [e, length_cumsum]
        simp only [List.length_cons, List.length_zipWith, List.length_zip,
          List.length_tail, List.length_dropLast]
        have hls : t.length = s.length := by
          simpa using hxy
        simp [hls]
      · rw [e]
        show (((0 : ℝ) :: _).scanl (fun u v => u + v) 0).tail.headI = 0
        rw [List.scanl_cons]
        simp only [List.singleton_append, List.tail_cons]
        rw [headI_scanl]
        norm_num
      · unfold transect_distance
        apply chain_cumsum
        intro v hv
        rw [List.mem_map] at hv
        obtain ⟨u, _, rfl⟩ := hv
        exact Real.sqrt_nonneg u

/-- Witness for C8 at the two points (0,0) and (3,4). -/
theorem c8_transect_distance_amended_witness :
    (transect_distance [0, 3] [0, 4]).headI = 0
    ∧ List.Chain' (fun p q => p ≤ q) (transect_distance [0, 3] [0, 4]) :=
  ⟨(c8_transect_distance_amended [0, 3] [0, 4] (by decide) (by decide)).2.2.1,
   (c8_transect_distance_amended [0, 3] [0, 4] (by decide) (by decide)).2.2.2⟩

end MosaicThickness

namespace RTModel

lemma seaicert_mp_loop_error (run : ModelInput → ModelOutput)
    (rows : List MPRow)
    (hex : ∃ r ∈ rows, (r.snow_depth_m > 0 ∧ r.melt_pond_depth_m > 0)
      ∨ r.snow_depth_m < 0 ∨ r.melt_pond_depth_m < 0
      ∨ r.ice_thickness_mean_m < 0) :
    ∃ msg, (seaicert_mp_loop run rows).1 = .error (.valueError msg) := by
  induction rows with
  | nil => simp at hex
  | cons r rs ih =>
    unfold seaicert_mp_loop
    by_cases c1 : r.snow_depth_m > 0 ∧ r.melt_pond_depth_m > 0
    · rw [if_pos c1]
      exact ⟨_, rfl⟩
    · rw [if_neg c1]
      by_cases c2 : r.snow_depth_m < 0
      · rw [if_pos c2]
        exact ⟨_, rfl⟩
      · rw [if_neg c2]
        by_cases c3 : r.melt_pond_depth_m < 0
        · rw [if_pos c3]
          exact ⟨_, rfl⟩
        · rw [if_neg c3]
          by_cases c4 : r.ice_thickness_mean_m < 0
          · rw [if_pos c4]
            exact ⟨_, rfl⟩
          · rw [if_neg c4]
            have hex2 : ∃ r2 ∈ rs,
                (r2.snow_depth_m > 0 ∧ r2.melt_pond_depth_m > 0)
                ∨ r2.snow_depth_m < 0 ∨ r2.melt_pond_depth_m < 0
                ∨ r2.ice_thickness_mean_m < 0 := by
              rcases hex with ⟨r2, hmem, hbad⟩
              rcases List.mem_cons.mp hmem with rfl | hm
              · rcases hbad with h | h | h | h
                · exact absurd h c1
                · exact absurd h c2
                · exact absurd h c3
                · exact absurd h c4
              · exact ⟨r2, hm, hbad⟩
            obtain ⟨msg, herr⟩ := ih hex2
            exact ⟨msg, by simp [herr]⟩

lemma seaicert_mp_loop_log (run : ModelInput → ModelOutput)
    (rows : List MPRow) (inp : ModelInput)
    (hmem : inp ∈ (seaicert_mp_loop run rows).2) :
    ¬ ((inp.snow_depth > 0 ∧ inp.pond_depth > 0) ∨ inp.snow_depth < 0
      ∨ inp.pond_depth < 0 ∨ inp.sea_ice_thickness < 0) := by
  induction rows with
  | nil => simp [seaicert_mp_loop] at hmem
  | cons r rs ih =>
    unfold seaicert_mp_loop at hmem
    by_cases c1 : r.snow_depth_m > 0 ∧ r.melt_pond_depth_m > 0
    · rw [if_pos c1] at hmem
      simp at hmem
    · rw [if_neg c1] at hmem
      by_cases c2 : r.snow_depth_m < 0
      · rw [if_pos c2] at hmem
        simp at hmem
      · rw [if_neg c2] at hmem
        by_cases c3 : r.melt_pond_depth_m < 0
        · rw [if_pos c3] at hmem
          simp at hmem
        · rw [if_neg c3] at hmem
          by_cases c4 : r.ice_thickness_mean_m < 0
          · rw [if_pos c4] at hmem
            simp at hmem
          · rw [if_neg c4] at hmem
            simp only [List.mem_cons] at hmem
            rcases hmem with rfl | hm
            · intro hbad
              rcases hbad with h | h | h | h
              · exact c1 h
              · exact c2 h
              · exact c3 h
              · exact c4 h
            · exact ih hm

/-- C3: validation in the radiative-transfer drivers.  For `seaicert_point`:
on any observation with snow depth and pond depth simultaneously positive,
or with a negative snow depth, pond depth or ice thickness, the driver
returns an error, and the result does not depend on the model `run`
function (the model is not invoked).  For `seaicert_mp`: whenever some row
violates those constraints the driver returns a validation (`ValueError`)
error, and the model is only ever invoked on inputs satisfying all the
constraints. -/
theorem c3_rt_validation :
    (∀ (run : ModelInput → ModelOutput) (t : Timestamp)
        (lat snow pond ice ts ta gr : ℚ),
        ((snow > 0 ∧ pond > 0) ∨ snow < 0 ∨ pond < 0 ∨ ice < 0) →
        (∃ e, seaicert_point run t lat snow pond ice ts ta gr = .error e)
        ∧ (∀ run2 : ModelInput → ModelOutput,
            seaicert_point run t lat snow pond ice ts ta gr
              = seaicert_point run2 t lat snow pond ice ts ta gr))
    ∧ (∀ (run : ModelInput → ModelOutput) (rows : List MPRow) (r : MPRow),
        r ∈ rows →
        ((r.snow_depth_m > 0 ∧ r.melt_pond_depth_m > 0)
          ∨ r.snow_depth_m < 0 ∨ r.melt_pond_depth_m < 0
          ∨ r.ice_thickness_mean_m < 0) →
        ∃ msg, (seaicert_mp run rows).1 = .error (.valueError msg))
    ∧ (∀ (run : ModelInput → ModelOutput) (rows : List MPRow)
        (inp : ModelInput),
        inp ∈ (seaicert_mp run rows).2 →
        ¬ ((inp.snow_depth > 0 ∧ inp.pond_depth > 0) ∨ inp.snow_depth < 0
          ∨ inp.pond_depth < 0 ∨ inp.sea_ice_thickness < 0)) := by
  refine ⟨?_, ?_, ?_⟩
  · intro run t lat snow pond ice ts ta gr hbad
    unfold seaicert_point
    by_cases c1 : snow > 0 ∧ pond > 0
    · simp only [if_pos c1]
      exact ⟨⟨_, rfl⟩, fun run2 => trivial⟩
    · simp only [if_neg c1]
      by_cases c2 : snow < 0
      · simp only [if_pos c2]
        exact ⟨⟨_, rfl⟩, fun run2 => trivial⟩
      · simp only [if_neg c2]
        by_cases c3 : pond < 0
        · simp only [if_pos c3]
          exact ⟨⟨_, rfl⟩, fun run2 => trivial⟩
        · simp only [if_neg c3]
          by_cases c4 : ice < 0
          · simp only [if_pos c4]
            exact ⟨⟨_, rfl⟩, fun run2 => trivial⟩
          · exfalso
            rcases hbad with h | h | h | h
            · exact c1 h
            · exact c2 h
            · exact c3 h
            · exact c4 h
  · intro run rows r hmem hbad
    obtain ⟨msg, herr⟩ := seaicert_mp_loop_error run rows ⟨r, hmem, hbad⟩
    exact ⟨msg, by simp [seaicert_mp, herr]⟩
  · intro run rows inp hmem
    exact seaicert_mp_loop_log run rows inp hmem

/-- Witness for C3: a both-positive point observation errors independently
of the model; a one-row frame with negative ice thickness errors in
`seaicert_mp`; and the single input the model is invoked on for a valid row
satisfies all constraints. -/
theorem c3_rt_validation_witness :
    (∃ e, seaicert_point (fun _ => ⟨0, 0, 0, 0⟩) ⟨100, 0, 0, 0⟩ 80 1 1 1 273 273 180
        = .error e)
    ∧ (∃ msg, (seaicert_mp (fun _ => ⟨0, 0, 0, 0⟩)
        [⟨100, 80, 0, 0, -1, 0⟩]).1 = .error (.valueError msg))
    ∧ ¬ (((⟨100 + 1 / 2, 80, 2, 0, 1, none, none, 180⟩ : ModelInput).snow_depth > 0
        ∧ (⟨100 + 1 / 2, 80, 2, 0, 1, none, none, 180⟩ : ModelInput).pond_depth > 0)
      ∨ (⟨100 + 1 / 2, 80, 2, 0, 1, none, none, 180⟩ : ModelInput).snow_depth < 0
      ∨ (⟨100 + 1 / 2, 80, 2, 0, 1, none, none, 180⟩ : ModelInput).pond_depth < 0
      ∨ (⟨100 + 1 / 2, 80, 2, 0, 1, none, none, 180⟩ : ModelInput).sea_ice_thickness < 0) := by
  refine ⟨?_, ?_, ?_⟩
  · exact (c3_rt_validation.1 (fun _ => ⟨0, 0, 0, 0⟩) ⟨100, 0, 0, 0⟩ 80 1 1 1 273 273 180
      (Or.inl ⟨by norm_num, by norm_num⟩)).1
  · exact c3_rt_validation.2.1 (fun _ => ⟨0, 0, 0, 0⟩) [⟨100, 80, 0, 0, -1, 0⟩]
      ⟨100, 80, 0, 0, -1, 0⟩ (List.mem_singleton.mpr rfl)
      (Or.inr (Or.inr (Or.inr (by norm_num))))
  · refine c3_rt_validation.2.2 (fun _ => ⟨0, 0, 0, 0⟩) [⟨100, 80, 2, 0, 1, 0⟩] _ ?_
    have hlog : (seaicert_mp (fun _ => (⟨0, 0, 0, 0⟩ : ModelOutput))
        [⟨100, 80, 2, 0, 1, 0⟩]).2
        = [(⟨100 + 1 / 2, 80, 2, 0, 1, none, none, 180⟩ : ModelInput)] := by
      norm_num [seaicert_mp, seaicert_mp_loop]
    rw [hlog]
    exact List.mem_singleton.mpr rfl

end RTModel

namespace ReformatMagnaprobe

/-- C2 (code bug): on header `a,b,c` with data lines `1,2,3` and `1,2`, the
initial column-count check fails, no header fix applies, and the padding
step is skipped because `fix_data_fields` only runs when `check_data_fields`
is TRUE (i.e. when every row already matches the header, making the fix a
no-op), so `reformat_combined_file` raises instead of padding the short row
— even though `fix_data_line` would have produced the padded row `1,2,nan`
the claim describes. -/
theorem c2_reformat_padding_code_bug :
    reformat_combined_file ("a,b,c".toList) ["1,2,3".toList, "1,2".toList]
      = .error (.valueError "Mismatch between header and data columns persists")
    ∧ fix_data_line 3 ("1,2".toList) = "1,2,nan".toList
    ∧ check_data_fields ("a,b,c".toList) ["1,2,3".toList, "1,2".toList] = false :=
  ⟨by rfl, by decide, by decide⟩

/-- C9: reformatting is idempotent — whenever `reformat_combined_file`
succeeds, running it again on its own output reproduces that output
unchanged; in particular the canonical header is a fixed point of
`reformat_header`, and the missing-delimiter check never fires on a
canonical header (its parentheses have been stripped). -/
theorem c9_reformat_idempotent :
    (∀ (header : List Char) (data : List (List Char)) (rh : List Char)
        (rd : List (List Char)),
        reformat_combined_file header data = .ok (rh, rd) →
        reformat_combined_file rh rd = .ok (rh, rd))
    ∧ (∀ header : List Char,
        reformat_header (reformat_header header) = reformat_header header)
    ∧ (∀ header : List Char,
        check_missing_comma_in_header (reformat_header header) = false) := by
  refine ⟨?_, reformat_header_idem, check_missing_reformat_header⟩
  intro header data rh rd h
  obtain ⟨h1, d1, hcc, hrh, hrd⟩ := reformat_ok_shape header data rh rd h
  subst hrh
  subst hrd
  exact reformat_pass2 h1 _ hcc

/-- Witness for C9: a second pass over the output of a successful first
pass on the header `Snow Depth (m),Lat` changes nothing. -/
theorem c9_reformat_idempotent_witness :
    reformat_combined_file ("snow_depth_m,lat".toList) ["1,2".toList]
      = .ok ("snow_depth_m,lat".toList, ["1,2".toList]) :=
  c9_reformat_idempotent.1 ("Snow Depth (m),Lat".toList) ["1,2".toList]
    ("snow_depth_m,lat".toList) ["1,2".toList] (by rfl)

end ReformatMagnaprobe

namespace MosaicThickness

/-- Witness for C7 on concrete one-column frames. -/
theorem c7_assign_depth_clamp_witness :
    ((assign_melt_pond_depth
        ⟨2, [("melt_pond_depth_m", [some 2, some (-1)])]⟩).1.getCol
          "melt_pond_depth_m")[1]?
        = some (if 0 < (-1 : ℚ) then some ((-1 : ℚ)) else some (0 : ℚ))
    ∧ (assign_snow_depth ⟨2, ([] : List (String × Col))⟩).1.getCol "snow_depth_m"
        = List.replicate 2 none :=
  ⟨c7_assign_depth_clamp.1 ⟨2, [("melt_pond_depth_m", [some 2, some (-1)])]⟩ 1 (-1)
      (by rfl) (by rfl),
   (c7_assign_depth_clamp.2.2.2.2.2.2.1 ⟨2, ([] : List (String × Col))⟩ (by rfl)).1⟩

end MosaicThickness

end MosaicVerify
